import Mathlib

/-!
Verification development for the two Google Cloud target-proxy resource
managers (`resource_compute_target_ssl_proxy.go` and
`resource_compute_target_https_proxy.go`).

The Go code is glue between a declarative resource schema and a remote
compute API: every operation is a straight-line sequence of
"read field, build request, issue RPC, block on the returned operation,
set field".  We embed it shallowly:

* the remote API client, the project resolver, the reference parsers and
  the two operation-wait helpers are external services; they are modelled
  as records of functions (`Config`, `ComputeApi`) supplied as parameters;
* the mutable `schema.ResourceData` is an explicit state record
  (`SslState`, `HttpsState`); `d.Set`/`d.SetId` become functional update;
* every RPC issued through the client is recorded in an `ApiCall` trace,
  and each operation returns a `Run`: the Go error result (`none` = nil),
  the final local state, and the trace, in issue order.
-/

namespace TargetProxy

/-- Error shape returned by a remote `Get`: the not-found classifier needs to
distinguish a 404 from any other API error. -/
inductive ApiError where
  | notFound
  | other (msg : String)
deriving DecidableEq, Repr

/-- Opaque handle of a long-running remote operation. -/
structure Op where
  opId : Nat
deriving DecidableEq, Repr

/-- Remote representation of a `compute.TargetSslProxy`. -/
structure TargetSslProxy where
  name : String
  service : String
  proxyHeader : String
  description : String
  sslCertificates : List String
  sslPolicy : String
  id : Nat
  selfLink : String
deriving DecidableEq, Repr

/-- Remote representation of a `compute.TargetHttpsProxy`. -/
structure TargetHttpsProxy where
  name : String
  urlMap : String
  description : String
  sslCertificates : List String
  sslPolicy : String
  id : Nat
  selfLink : String
deriving DecidableEq, Repr

/-- Local `schema.ResourceData` of the SSL-proxy resource.  String fields use
`""` for "unset", matching the Go zero value (`d.GetOk` is false exactly on
the zero value).  `id` is the resource identity set by `d.SetId`. -/
structure SslState where
  id : String
  name : String
  backend_service : String
  ssl_certificates : List String
  description : String
  proxy_header : String
  ssl_policy : String
  project : String
  self_link : String
  proxy_id : String
deriving DecidableEq, Repr

/-- Local `schema.ResourceData` of the HTTPS-proxy resource. -/
structure HttpsState where
  id : String
  name : String
  url_map : String
  ssl_certificates : List String
  description : String
  ssl_policy : String
  project : String
  self_link : String
  proxy_id : String
deriving DecidableEq, Repr

/-- One RPC issued through the compute client, with the payload that the Go
code passes.  `Get` requests are included so a trace shows the trailing
read; they are the only non-mutating calls. -/
inductive ApiCall where
  | insertSslProxy (proxy : TargetSslProxy)
  | getSslProxy (name : String)
  | deleteSslProxy (name : String)
  | setSslProxySslPolicy (name : String) (policy : Option String)
  | setSslProxyProxyHeader (name : String) (header : String)
  | setSslProxyBackendService (name : String) (service : String)
  | setSslProxySslCertificates (name : String) (certs : List String)
  | insertHttpsProxy (proxy : TargetHttpsProxy)
  | getHttpsProxy (name : String)
  | deleteHttpsProxy (name : String)
  | setHttpsProxyUrlMap (name : String) (urlMap : String)
  | setHttpsProxySslCertificates (name : String) (certs : List String)
  | setHttpsProxySslPolicy (name : String) (policy : Option String)
deriving DecidableEq, Repr

/-- The external helpers consumed by the resource code: the project resolver
`getProject` and the two reference parsers.  A parser returns the
`RelativeLink()` of the parsed field value, or an error. -/
structure Config where
  getProject : String → Except String String
  parseSslCertificate : String → Except String String
  parseSslPolicy : String → Except String String

/-- The generated compute API client together with the two operation-wait
helpers.  Each RPC returns an operation handle or an error string; `Get`
returns the remote object or an `ApiError`.  A wait helper returns `none`
on success and `some e` when waiting on the operation fails. -/
structure ComputeApi where
  insertSslProxy : String → TargetSslProxy → Except String Op
  getSslProxy : String → String → Except ApiError TargetSslProxy
  deleteSslProxy : String → String → Except String Op
  setSslProxySslPolicy : String → String → Option String → Except String Op
  setSslProxyProxyHeader : String → String → String → Except String Op
  setSslProxyBackendService : String → String → String → Except String Op
  setSslProxySslCertificates : String → String → List String → Except String Op
  insertHttpsProxy : String → TargetHttpsProxy → Except String Op
  getHttpsProxy : String → String → Except ApiError TargetHttpsProxy
  deleteHttpsProxy : String → String → Except String Op
  setHttpsProxyUrlMap : String → String → String → Except String Op
  setHttpsProxySslCertificates : String → String → List String → Except String Op
  setHttpsProxySslPolicy : String → String → Option String → Except String Op
  computeOperationWait : Op → String → String → Option String
  computeSharedOperationWait : Op → String → String → Option String

/-- Result of running one resource operation: the Go error return (`none` is
a nil error), the final local state, and the RPCs issued, in order. -/
structure Run (σ : Type) where
  err : Option String
  state : σ
  calls : List ApiCall
deriving DecidableEq, Repr

/-- Prepend the calls already issued to the run produced by a trailing
sub-operation (the `return resourceRead(d, meta)` pattern). -/
def mergeRun {σ : Type} (cs : List ApiCall) (r : Run σ) : Run σ :=
  ⟨r.err, r.state, cs ++ r.calls⟩

/-- The value component of a Go `(value, err)` pair: `none` when the call
errored (the nil pointer).  Used where the source reads a result without
checking the accompanying error. -/
def exOption (e : Except String String) : Option String :=
  match e with
  | .ok a => some a
  | .error _ => none

/-- Modelled from the spec: `handleNotFoundError` is a shared helper of the
provider that is not among the provided sources.  Per the spec's read
contract and error-handling design, a remote not-found condition clears the
local identity and returns no error ("treated as deleted-elsewhere"), while
any other fetch error is wrapped with the resource context and surfaced. -/
def handleNotFoundError {σ : Type} (e : ApiError) (clearId : σ → σ) (d : σ)
    (resource : String) : Option String × σ :=
  match e with
  | .notFound => (none, clearId d)
  | .other msg => (some ("Error reading " ++ resource ++ ": " ++ msg), d)

/-- `expandSslCertificates`: converts the declared certificate references
into relative resource paths by parsing each element in declared order,
failing on the first element that does not parse. -/
def expandSslCertificates (cfg : Config) (configured : List String) :
    Except String (List String) :=
  match configured with
  | [] => .ok []
  | c :: rest =>
    match cfg.parseSslCertificate c with
    | .error e => .error ("Invalid ssl certificate: " ++ e)
    | .ok link =>
      match expandSslCertificates cfg rest with
      | .error e => .error e
      | .ok links => .ok (link :: links)

/-- The `compute.TargetSslProxy` request body built by the SSL-proxy create
from the declared fields and the expanded certificate list. -/
def sslInsertPayload (d : SslState) (certs : List String) : TargetSslProxy :=
  { name := d.name
    service := d.backend_service
    proxyHeader := d.proxy_header
    description := d.description
    sslCertificates := certs
    sslPolicy := ""
    id := 0
    selfLink := "" }

/-- The `compute.TargetHttpsProxy` request body built by the HTTPS-proxy
create.  (`description` is copied through `GetOk`, which on a string is the
identity on the zero value, so the payload always carries `d.description`.) -/
def httpsInsertPayload (d : HttpsState) (certs : List String) : TargetHttpsProxy :=
  { name := d.name
    urlMap := d.url_map
    description := d.description
    sslCertificates := certs
    sslPolicy := ""
    id := 0
    selfLink := "" }

/-- `resourceComputeTargetSslProxyRead`: resolve the project, fetch the
remote object by the local identity, route fetch errors through the
not-found classifier, and otherwise copy every remote field into local
state (the numeric id stringified in base 10, and the self link). -/
def resourceComputeTargetSslProxyRead (cfg : Config) (api : ComputeApi)
    (d : SslState) : Run SslState :=
  match cfg.getProject d.project with
  | .error e => ⟨some e, d, []⟩
  | .ok project =>
    match api.getSslProxy project d.id with
    | .error ge =>
      let p := handleNotFoundError ge (fun s => { s with id := "" }) d
        ("Target SSL Proxy " ++ d.name)
      ⟨p.1, p.2, [ApiCall.getSslProxy d.id]⟩
    | .ok proxy =>
      ⟨none,
       { d with
          name := proxy.name
          description := proxy.description
          proxy_header := proxy.proxyHeader
          backend_service := proxy.service
          ssl_certificates := proxy.sslCertificates
          ssl_policy := proxy.sslPolicy
          project := project
          self_link := proxy.selfLink
          proxy_id := Nat.repr proxy.id },
       [ApiCall.getSslProxy d.id]⟩

/-- `resourceComputeTargetHttpsProxyRead`: same shape as the SSL-proxy read
(no `proxy_header` field on this resource). -/
def resourceComputeTargetHttpsProxyRead (cfg : Config) (api : ComputeApi)
    (d : HttpsState) : Run HttpsState :=
  match cfg.getProject d.project with
  | .error e => ⟨some e, d, []⟩
  | .ok project =>
    match api.getHttpsProxy project d.id with
    | .error ge =>
      let p := handleNotFoundError ge (fun s => { s with id := "" }) d
        ("Target HTTPS proxy " ++ d.name)
      ⟨p.1, p.2, [ApiCall.getHttpsProxy d.id]⟩
    | .ok proxy =>
      ⟨none,
       { d with
          ssl_certificates := proxy.sslCertificates
          proxy_id := Nat.repr proxy.id
          self_link := proxy.selfLink
          description := proxy.description
          url_map := proxy.urlMap
          name := proxy.name
          project := project
          ssl_policy := proxy.sslPolicy },
       [ApiCall.getHttpsProxy d.id]⟩

/-- `resourceComputeTargetSslProxyCreate`: resolve project, expand the
certificate references, insert, wait, set the identity, then — only when an
`ssl_policy` is declared — attach the policy and wait on that operation,
and finish with the read.  The source discards the error of
`ParseSslPolicyFieldValue` (the `err` of line 119 is shadowed by the RPC's
`err` before being checked), which `exOption` mirrors: a failed parse
leaves `none` in the attach payload instead of aborting. -/
def resourceComputeTargetSslProxyCreate (cfg : Config) (api : ComputeApi)
    (d : SslState) : Run SslState :=
  match cfg.getProject d.project with
  | .error e => ⟨some e, d, []⟩
  | .ok project =>
    match expandSslCertificates cfg d.ssl_certificates with
    | .error e => ⟨some e, d, []⟩
    | .ok sslCertificates =>
      match api.insertSslProxy project (sslInsertPayload d sslCertificates) with
      | .error e =>
        ⟨some ("Error creating TargetSslProxy: " ++ e), d,
         [ApiCall.insertSslProxy (sslInsertPayload d sslCertificates)]⟩
      | .ok op =>
        match api.computeOperationWait op project "Creating Target Ssl Proxy" with
        | some e =>
          ⟨some e, d,
           [ApiCall.insertSslProxy (sslInsertPayload d sslCertificates)]⟩
        | none =>
          if d.ssl_policy = "" then
            mergeRun [ApiCall.insertSslProxy (sslInsertPayload d sslCertificates)]
              (resourceComputeTargetSslProxyRead cfg api { d with id := d.name })
          else
            match api.setSslProxySslPolicy project d.name
                (exOption (cfg.parseSslPolicy d.ssl_policy)) with
            | .error e =>
              ⟨some ("Error setting SSL Policy: " ++ e), { d with id := d.name },
               [ApiCall.insertSslProxy (sslInsertPayload d sslCertificates),
                ApiCall.setSslProxySslPolicy d.name
                  (exOption (cfg.parseSslPolicy d.ssl_policy))]⟩
            | .ok op2 =>
              match api.computeSharedOperationWait op2 project
                  "Adding Target SSL Proxy SSL Policy" with
              | some we =>
                ⟨some we, { d with id := d.name },
                 [ApiCall.insertSslProxy (sslInsertPayload d sslCertificates),
                  ApiCall.setSslProxySslPolicy d.name
                    (exOption (cfg.parseSslPolicy d.ssl_policy))]⟩
              | none =>
                mergeRun
                  [ApiCall.insertSslProxy (sslInsertPayload d sslCertificates),
                   ApiCall.setSslProxySslPolicy d.name
                     (exOption (cfg.parseSslPolicy d.ssl_policy))]
                  (resourceComputeTargetSslProxyRead cfg api { d with id := d.name })

/-- `resourceComputeTargetHttpsProxyCreate`: identical shape to the
SSL-proxy create, with the same shadowed parse error on the policy attach. -/
def resourceComputeTargetHttpsProxyCreate (cfg : Config) (api : ComputeApi)
    (d : HttpsState) : Run HttpsState :=
  match cfg.getProject d.project with
  | .error e => ⟨some e, d, []⟩
  | .ok project =>
    match expandSslCertificates cfg d.ssl_certificates with
    | .error e => ⟨some e, d, []⟩
    | .ok sslCertificates =>
      match api.insertHttpsProxy project (httpsInsertPayload d sslCertificates) with
      | .error e =>
        ⟨some ("Error creating TargetHttpsProxy: " ++ e), d,
         [ApiCall.insertHttpsProxy (httpsInsertPayload d sslCertificates)]⟩
      | .ok op =>
        match api.computeOperationWait op project "Creating Target Https Proxy" with
        | some e =>
          ⟨some e, d,
           [ApiCall.insertHttpsProxy (httpsInsertPayload d sslCertificates)]⟩
        | none =>
          if d.ssl_policy = "" then
            mergeRun [ApiCall.insertHttpsProxy (httpsInsertPayload d sslCertificates)]
              (resourceComputeTargetHttpsProxyRead cfg api { d with id := d.name })
          else
            match api.setHttpsProxySslPolicy project d.name
                (exOption (cfg.parseSslPolicy d.ssl_policy)) with
            | .error e =>
              ⟨some ("Error setting Target HTTPS Proxy SSL Policy: " ++ e),
               { d with id := d.name },
               [ApiCall.insertHttpsProxy (httpsInsertPayload d sslCertificates),
                ApiCall.setHttpsProxySslPolicy d.name
                  (exOption (cfg.parseSslPolicy d.ssl_policy))]⟩
            | .ok op2 =>
              match api.computeSharedOperationWait op2 project
                  "Adding Target HTTPS Proxy SSL Policy" with
              | some we =>
                ⟨some we, { d with id := d.name },
                 [ApiCall.insertHttpsProxy (httpsInsertPayload d sslCertificates),
                  ApiCall.setHttpsProxySslPolicy d.name
                    (exOption (cfg.parseSslPolicy d.ssl_policy))]⟩
              | none =>
                mergeRun
                  [ApiCall.insertHttpsProxy (httpsInsertPayload d sslCertificates),
                   ApiCall.setHttpsProxySslPolicy d.name
                     (exOption (cfg.parseSslPolicy d.ssl_policy))]
                  (resourceComputeTargetHttpsProxyRead cfg api { d with id := d.name })

/-- `resourceComputeTargetSslProxyDelete`: issue the delete, wrap a call
error with context, block on the operation, and only then clear the local
identity.  Any delete error, a 404 included, takes the generic wrap. -/
def resourceComputeTargetSslProxyDelete (cfg : Config) (api : ComputeApi)
    (d : SslState) : Run SslState :=
  match cfg.getProject d.project with
  | .error e => ⟨some e, d, []⟩
  | .ok project =>
    match api.deleteSslProxy project d.id with
    | .error e =>
      ⟨some ("Error deleting TargetSslProxy: " ++ e), d,
       [ApiCall.deleteSslProxy d.id]⟩
    | .ok op =>
      match api.computeOperationWait op project "Deleting Target SSL Proxy" with
      | some e => ⟨some e, d, [ApiCall.deleteSslProxy d.id]⟩
      | none => ⟨none, { d with id := "" }, [ApiCall.deleteSslProxy d.id]⟩

/-- `resourceComputeTargetHttpsProxyDelete`: same shape as the SSL delete. -/
def resourceComputeTargetHttpsProxyDelete (cfg : Config) (api : ComputeApi)
    (d : HttpsState) : Run HttpsState :=
  match cfg.getProject d.project with
  | .error e => ⟨some e, d, []⟩
  | .ok project =>
    match api.deleteHttpsProxy project d.id with
    | .error e =>
      ⟨some ("Error deleting TargetHttpsProxy: " ++ e), d,
       [ApiCall.deleteHttpsProxy d.id]⟩
    | .ok op =>
      match api.computeOperationWait op project "Deleting Target Https Proxy" with
      | some e => ⟨some e, d, [ApiCall.deleteHttpsProxy d.id]⟩
      | none => ⟨none, { d with id := "" }, [ApiCall.deleteHttpsProxy d.id]⟩

/-- Which field groups the framework reports as changed (`d.HasChange`) for
the SSL-proxy update.  The diff is computed by the host framework;
the update code only branches on these flags. -/
structure SslChanges where
  proxy_header : Bool
  backend_service : Bool
  ssl_certificates : Bool
  ssl_policy : Bool
deriving DecidableEq, Repr

/-- `d.HasChange` flags for the HTTPS-proxy update. -/
structure HttpsChanges where
  url_map : Bool
  ssl_certificates : Bool
  ssl_policy : Bool
deriving DecidableEq, Repr

/-- One field-group block of an update: the error so far (first component)
and the RPCs it issued.  The blocks never touch local state — the only
local writes of an update happen in the trailing read. -/
def seqStep (a b : Option String × List ApiCall) : Option String × List ApiCall :=
  match a.1 with
  | some e => (some e, a.2)
  | none => (b.1, a.2 ++ b.2)

/-- The `proxy_header` block of the SSL-proxy update. -/
def sslStepProxyHeader (api : ComputeApi) (project : String) (flag : Bool)
    (d : SslState) : Option String × List ApiCall :=
  if flag then
    match api.setSslProxyProxyHeader project d.id d.proxy_header with
    | .error e =>
      (some ("Error updating proxy_header: " ++ e),
       [ApiCall.setSslProxyProxyHeader d.id d.proxy_header])
    | .ok op =>
      match api.computeOperationWait op project "Updating Target SSL Proxy" with
      | some e => (some e, [ApiCall.setSslProxyProxyHeader d.id d.proxy_header])
      | none => (none, [ApiCall.setSslProxyProxyHeader d.id d.proxy_header])
  else (none, [])

/-- The `backend_service` block of the SSL-proxy update. -/
def sslStepBackendService (api : ComputeApi) (project : String) (flag : Bool)
    (d : SslState) : Option String × List ApiCall :=
  if flag then
    match api.setSslProxyBackendService project d.id d.backend_service with
    | .error e =>
      (some ("Error updating backend_service: " ++ e),
       [ApiCall.setSslProxyBackendService d.id d.backend_service])
    | .ok op =>
      match api.computeOperationWait op project "Updating Target SSL Proxy" with
      | some e => (some e, [ApiCall.setSslProxyBackendService d.id d.backend_service])
      | none => (none, [ApiCall.setSslProxyBackendService d.id d.backend_service])
  else (none, [])

/-- The `ssl_certificates` block of the SSL-proxy update.  (The source wraps
a call failure with the copy-pasted "backend_service" context string.) -/
def sslStepSslCertificates (cfg : Config) (api : ComputeApi) (project : String)
    (flag : Bool) (d : SslState) : Option String × List ApiCall :=
  if flag then
    match expandSslCertificates cfg d.ssl_certificates with
    | .error e => (some e, [])
    | .ok certs =>
      match api.setSslProxySslCertificates project d.id certs with
      | .error e =>
        (some ("Error updating backend_service: " ++ e),
         [ApiCall.setSslProxySslCertificates d.id certs])
      | .ok op =>
        match api.computeOperationWait op project "Updating Target SSL Proxy" with
        | some e => (some e, [ApiCall.setSslProxySslCertificates d.id certs])
        | none => (none, [ApiCall.setSslProxySslCertificates d.id certs])
  else (none, [])

/-- The `ssl_policy` block of the SSL-proxy update.  Unlike the create, the
update checks the parse error before issuing the RPC. -/
def sslStepSslPolicy (cfg : Config) (api : ComputeApi) (project : String)
    (flag : Bool) (d : SslState) : Option String × List ApiCall :=
  if flag then
    match cfg.parseSslPolicy d.ssl_policy with
    | .error e => (some e, [])
    | .ok link =>
      match api.setSslProxySslPolicy project d.id (some link) with
      | .error e => (some e, [ApiCall.setSslProxySslPolicy d.id (some link)])
      | .ok op =>
        match api.computeSharedOperationWait op project
            "Updating Target SSL Proxy SSL Policy" with
        | some e => (some e, [ApiCall.setSslProxySslPolicy d.id (some link)])
        | none => (none, [ApiCall.setSslProxySslPolicy d.id (some link)])
  else (none, [])

/-- The four field-group blocks of the SSL-proxy update, chained in source
order with first-error stop. -/
def sslUpdateSteps (cfg : Config) (api : ComputeApi) (project : String)
    (ch : SslChanges) (d : SslState) : Option String × List ApiCall :=
  seqStep
    (seqStep
      (seqStep (sslStepProxyHeader api project ch.proxy_header d)
        (sslStepBackendService api project ch.backend_service d))
      (sslStepSslCertificates cfg api project ch.ssl_certificates d))
    (sslStepSslPolicy cfg api project ch.ssl_policy d)

/-- `resourceComputeTargetSslProxyUpdate`: resolve the project, run the four
field-group blocks in order (each only when its `HasChange` flag is set,
stopping at the first error), and finish with the read. -/
def resourceComputeTargetSslProxyUpdate (cfg : Config) (api : ComputeApi)
    (ch : SslChanges) (d : SslState) : Run SslState :=
  match cfg.getProject d.project with
  | .error e => ⟨some e, d, []⟩
  | .ok project =>
    match sslUpdateSteps cfg api project ch d with
    | (some e, cs) => ⟨some e, d, cs⟩
    | (none, cs) => mergeRun cs (resourceComputeTargetSslProxyRead cfg api d)

/-- The `url_map` block of the HTTPS-proxy update. -/
def httpsStepUrlMap (api : ComputeApi) (project : String) (flag : Bool)
    (d : HttpsState) : Option String × List ApiCall :=
  if flag then
    match api.setHttpsProxyUrlMap project d.id d.url_map with
    | .error e =>
      (some ("Error updating Target HTTPS proxy URL map: " ++ e),
       [ApiCall.setHttpsProxyUrlMap d.id d.url_map])
    | .ok op =>
      match api.computeOperationWait op project "Updating Target Https Proxy URL Map" with
      | some e => (some e, [ApiCall.setHttpsProxyUrlMap d.id d.url_map])
      | none => (none, [ApiCall.setHttpsProxyUrlMap d.id d.url_map])
  else (none, [])

/-- The `ssl_certificates` block of the HTTPS-proxy update. -/
def httpsStepSslCertificates (cfg : Config) (api : ComputeApi) (project : String)
    (flag : Bool) (d : HttpsState) : Option String × List ApiCall :=
  if flag then
    match expandSslCertificates cfg d.ssl_certificates with
    | .error e => (some e, [])
    | .ok certs =>
      match api.setHttpsProxySslCertificates project d.id certs with
      | .error e =>
        (some ("Error updating Target Https Proxy SSL Certificates: " ++ e),
         [ApiCall.setHttpsProxySslCertificates d.id certs])
      | .ok op =>
        match api.computeOperationWait op project
            "Updating Target Https Proxy SSL certificates" with
        | some e => (some e, [ApiCall.setHttpsProxySslCertificates d.id certs])
        | none => (none, [ApiCall.setHttpsProxySslCertificates d.id certs])
  else (none, [])

/-- The `ssl_policy` block of the HTTPS-proxy update (parse error checked). -/
def httpsStepSslPolicy (cfg : Config) (api : ComputeApi) (project : String)
    (flag : Bool) (d : HttpsState) : Option String × List ApiCall :=
  if flag then
    match cfg.parseSslPolicy d.ssl_policy with
    | .error e => (some e, [])
    | .ok link =>
      match api.setHttpsProxySslPolicy project d.id (some link) with
      | .error e => (some e, [ApiCall.setHttpsProxySslPolicy d.id (some link)])
      | .ok op =>
        match api.computeSharedOperationWait op project
            "Updating Target HTTPS Proxy SSL Policy" with
        | some e => (some e, [ApiCall.setHttpsProxySslPolicy d.id (some link)])
        | none => (none, [ApiCall.setHttpsProxySslPolicy d.id (some link)])
  else (none, [])

/-- The three field-group blocks of the HTTPS-proxy update, chained in
source order with first-error stop. -/
def httpsUpdateSteps (cfg : Config) (api : ComputeApi) (project : String)
    (ch : HttpsChanges) (d : HttpsState) : Option String × List ApiCall :=
  seqStep
    (seqStep (httpsStepUrlMap api project ch.url_map d)
      (httpsStepSslCertificates cfg api project ch.ssl_certificates d))
    (httpsStepSslPolicy cfg api project ch.ssl_policy d)

/-- `resourceComputeTargetHttpsProxyUpdate`: the three field-group blocks in
order, stopping at the first error, then the read. -/
def resourceComputeTargetHttpsProxyUpdate (cfg : Config) (api : ComputeApi)
    (ch : HttpsChanges) (d : HttpsState) : Run HttpsState :=
  match cfg.getProject d.project with
  | .error e => ⟨some e, d, []⟩
  | .ok project =>
    match httpsUpdateSteps cfg api project ch d with
    | (some e, cs) => ⟨some e, d, cs⟩
    | (none, cs) => mergeRun cs (resourceComputeTargetHttpsProxyRead cfg api d)

/-- Schema field types used by the two resources. -/
inductive SchemaType where
  | string
  | list (elem : SchemaType)
deriving DecidableEq, Repr

/-- One declared `schema.Schema` entry: the fields the two resource schemas
actually set.  `minItems`/`maxItems` are `none` when the source does not
declare them; `diffSuppress` records whether a `DiffSuppressFunc` is
attached to the field or to its list element. -/
structure SchemaField where
  typ : SchemaType
  required : Bool
  optional : Bool
  computed : Bool
  forceNew : Bool
  minItems : Option Nat
  maxItems : Option Nat
  defaultVal : Option String
  diffSuppress : Bool
deriving DecidableEq, Repr

/-- A schema entry with everything unset, to be overridden per field. -/
def blankField : SchemaField :=
  { typ := SchemaType.string
    required := false
    optional := false
    computed := false
    forceNew := false
    minItems := none
    maxItems := none
    defaultVal := none
    diffSuppress := false }

/-- The declared schema of `google_compute_target_ssl_proxy`, field for
field from `resourceComputeTargetSslProxy`. -/
def resourceComputeTargetSslProxySchema : List (String × SchemaField) :=
  [("name", { blankField with required := true, forceNew := true }),
   ("backend_service", { blankField with required := true }),
   ("ssl_certificates",
     { blankField with
        typ := SchemaType.list SchemaType.string
        required := true
        maxItems := some 1
        diffSuppress := true }),
   ("description", { blankField with optional := true, forceNew := true }),
   ("proxy_header", { blankField with optional := true, defaultVal := some "NONE" }),
   ("ssl_policy", { blankField with optional := true, diffSuppress := true }),
   ("project", { blankField with optional := true, computed := true, forceNew := true }),
   ("proxy_id", { blankField with computed := true }),
   ("self_link", { blankField with computed := true })]

/-- The declared schema of `google_compute_target_https_proxy`, field for
field from `resourceComputeTargetHttpsProxy`. -/
def resourceComputeTargetHttpsProxySchema : List (String × SchemaField) :=
  [("name", { blankField with required := true, forceNew := true }),
   ("ssl_certificates",
     { blankField with
        typ := SchemaType.list SchemaType.string
        required := true
        diffSuppress := true }),
   ("url_map", { blankField with required := true, diffSuppress := true }),
   ("ssl_policy", { blankField with optional := true, diffSuppress := true }),
   ("description", { blankField with optional := true, forceNew := true }),
   ("self_link", { blankField with computed := true }),
   ("proxy_id", { blankField with computed := true }),
   ("project", { blankField with optional := true, computed := true, forceNew := true })]

/-- Every call except the two `Get` fetches mutates remote state. -/
def isMutatingCall : ApiCall → Bool
  | ApiCall.getSslProxy _ => false
  | ApiCall.getHttpsProxy _ => false
  | _ => true

/-- The SSL-proxy policy-attach RPC. -/
def isSslPolicyAttach : ApiCall → Bool
  | ApiCall.setSslProxySslPolicy _ _ => true
  | _ => false

/-- The HTTPS-proxy policy-attach RPC. -/
def isHttpsPolicyAttach : ApiCall → Bool
  | ApiCall.setHttpsProxySslPolicy _ _ => true
  | _ => false

/-- The SSL-proxy insert RPC. -/
def isSslInsert : ApiCall → Bool
  | ApiCall.insertSslProxy _ => true
  | _ => false

/-- The HTTPS-proxy insert RPC. -/
def isHttpsInsert : ApiCall → Bool
  | ApiCall.insertHttpsProxy _ => true
  | _ => false

/-- The remote SSL proxy an ideal (store-and-echo) server holds after a
create: the insert payload, plus the server-assigned numeric id and self
link, plus whatever policy the attach step installed. -/
def idealRemoteSsl (d : SslState) (certs : List String) (polLink : String)
    (rid : Nat) (link : String) : TargetSslProxy :=
  { sslInsertPayload d certs with sslPolicy := polLink, id := rid, selfLink := link }

/-- The analogous ideal remote HTTPS proxy. -/
def idealRemoteHttps (d : HttpsState) (certs : List String) (polLink : String)
    (rid : Nat) (link : String) : TargetHttpsProxy :=
  { httpsInsertPayload d certs with sslPolicy := polLink, id := rid, selfLink := link }

/-- An ideal server for the SSL-proxy round trip: every mutation succeeds,
waits succeed, and fetching `d.name` returns the stored object. -/
def idealSslApi (d : SslState) (certs : List String) (polLink : String)
    (rid : Nat) (link : String) : ComputeApi :=
  { insertSslProxy := fun _ _ => .ok ⟨1⟩
    getSslProxy := fun _ n =>
      if n = d.name then .ok (idealRemoteSsl d certs polLink rid link)
      else .error ApiError.notFound
    deleteSslProxy := fun _ _ => .ok ⟨1⟩
    setSslProxySslPolicy := fun _ _ _ => .ok ⟨1⟩
    setSslProxyProxyHeader := fun _ _ _ => .ok ⟨1⟩
    setSslProxyBackendService := fun _ _ _ => .ok ⟨1⟩
    setSslProxySslCertificates := fun _ _ _ => .ok ⟨1⟩
    insertHttpsProxy := fun _ _ => .ok ⟨1⟩
    getHttpsProxy := fun _ _ => .error ApiError.notFound
    deleteHttpsProxy := fun _ _ => .ok ⟨1⟩
    setHttpsProxyUrlMap := fun _ _ _ => .ok ⟨1⟩
    setHttpsProxySslCertificates := fun _ _ _ => .ok ⟨1⟩
    setHttpsProxySslPolicy := fun _ _ _ => .ok ⟨1⟩
    computeOperationWait := fun _ _ _ => none
    computeSharedOperationWait := fun _ _ _ => none }

/-- An ideal server for the HTTPS-proxy round trip. -/
def idealHttpsApi (d : HttpsState) (certs : List String) (polLink : String)
    (rid : Nat) (link : String) : ComputeApi :=
  { idealSslApi
      { id := "", name := "", backend_service := "", ssl_certificates := []
        description := "", proxy_header := "", ssl_policy := "", project := ""
        self_link := "", proxy_id := "" } [] "" 0 "" with
    getSslProxy := fun _ _ => .error ApiError.notFound
    getHttpsProxy := fun _ n =>
      if n = d.name then .ok (idealRemoteHttps d certs polLink rid link)
      else .error ApiError.notFound }

/-- A create run against the ideal store-and-echo server, where `f` is the
canonicalisation the certificate parser performs per reference. -/
def sslRoundTripRun (cfg : Config) (d : SslState) (f : String → String)
    (polLink : String) (rid : Nat) (link : String) : Run SslState :=
  resourceComputeTargetSslProxyCreate cfg
    (idealSslApi d (List.map f d.ssl_certificates) polLink rid link) d

/-- The HTTPS-proxy create run against the ideal server. -/
def httpsRoundTripRun (cfg : Config) (d : HttpsState) (f : String → String)
    (polLink : String) (rid : Nat) (link : String) : Run HttpsState :=
  resourceComputeTargetHttpsProxyCreate cfg
    (idealHttpsApi d (List.map f d.ssl_certificates) polLink rid link) d

/-- The spec's consistency invariant for the SSL proxy, stated field for
field: the local state carries exactly the remote object's fields (the
numeric id stringified), plus the resolved project. -/
def sslAgreesWithRemote (s : SslState) (p : TargetSslProxy) (project : String) : Prop :=
  s.name = p.name ∧ s.backend_service = p.service ∧ s.proxy_header = p.proxyHeader ∧
  s.description = p.description ∧ s.ssl_certificates = p.sslCertificates ∧
  s.ssl_policy = p.sslPolicy ∧ s.self_link = p.selfLink ∧
  s.proxy_id = Nat.repr p.id ∧ s.project = project

/-- The consistency invariant for the HTTPS proxy. -/
def httpsAgreesWithRemote (s : HttpsState) (p : TargetHttpsProxy) (project : String) : Prop :=
  s.name = p.name ∧ s.url_map = p.urlMap ∧ s.description = p.description ∧
  s.ssl_certificates = p.sslCertificates ∧ s.ssl_policy = p.sslPolicy ∧
  s.self_link = p.selfLink ∧ s.proxy_id = Nat.repr p.id ∧ s.project = project

/-- A fixed remote SSL proxy used by the concrete witness environments. -/
def sampleSslRemote : TargetSslProxy :=
  { name := "proxy-1"
    service := "bs-remote"
    proxyHeader := "PROXY_V1"
    description := "remote desc"
    sslCertificates := ["projects/proj/global/sslCertificates/cert-a"]
    sslPolicy := "projects/proj/global/sslPolicies/pol-1"
    id := 42
    selfLink := "https://example/self/proxy-1" }

/-- A fixed remote HTTPS proxy used by the concrete witness environments. -/
def sampleHttpsRemote : TargetHttpsProxy :=
  { name := "hproxy-1"
    urlMap := "um-remote"
    description := "remote desc"
    sslCertificates := ["projects/proj/global/sslCertificates/cert-a"]
    sslPolicy := ""
    id := 7
    selfLink := "https://example/self/hproxy-1" }

/-- An all-success concrete API: every RPC returns an operation, every wait
succeeds, and the fetches return the fixed sample objects. -/
def okApi : ComputeApi :=
  { insertSslProxy := fun _ _ => .ok ⟨1⟩
    getSslProxy := fun _ _ => .ok sampleSslRemote
    deleteSslProxy := fun _ _ => .ok ⟨1⟩
    setSslProxySslPolicy := fun _ _ _ => .ok ⟨1⟩
    setSslProxyProxyHeader := fun _ _ _ => .ok ⟨1⟩
    setSslProxyBackendService := fun _ _ _ => .ok ⟨1⟩
    setSslProxySslCertificates := fun _ _ _ => .ok ⟨1⟩
    insertHttpsProxy := fun _ _ => .ok ⟨1⟩
    getHttpsProxy := fun _ _ => .ok sampleHttpsRemote
    deleteHttpsProxy := fun _ _ => .ok ⟨1⟩
    setHttpsProxyUrlMap := fun _ _ _ => .ok ⟨1⟩
    setHttpsProxySslCertificates := fun _ _ _ => .ok ⟨1⟩
    setHttpsProxySslPolicy := fun _ _ _ => .ok ⟨1⟩
    computeOperationWait := fun _ _ _ => none
    computeSharedOperationWait := fun _ _ _ => none }

/-- A concrete config whose parsers always succeed, mapping a short name to
its canonical relative path. -/
def cfgW : Config :=
  { getProject := fun p => if p = "" then .ok "default-proj" else .ok p
    parseSslCertificate := fun c => .ok ("projects/proj/global/sslCertificates/" ++ c)
    parseSslPolicy := fun s => .ok ("projects/proj/global/sslPolicies/" ++ s) }

/-- A baseline declared SSL-proxy state for concrete runs. -/
def dSsl0 : SslState :=
  { id := ""
    name := "proxy-1"
    backend_service := "bs-1"
    ssl_certificates := ["cert-a", "cert-b"]
    description := "d"
    proxy_header := "NONE"
    ssl_policy := ""
    project := ""
    self_link := ""
    proxy_id := "" }

/-- A baseline declared HTTPS-proxy state for concrete runs. -/
def dHttps0 : HttpsState :=
  { id := ""
    name := "hproxy-1"
    url_map := "um-1"
    ssl_certificates := ["cert-a"]
    description := ""
    ssl_policy := ""
    project := ""
    self_link := ""
    proxy_id := "" }

/-- Config whose policy parser always fails, for the shadowed-error runs of
claim 2. -/
def cfgBadPolicy : Config :=
  { cfgW with parseSslPolicy := fun _ => .error "Invalid ssl policy" }

/-- Config whose policy parser always fails with a different message, for
the claim-9 runs. -/
def cfgBadPolicy9 : Config :=
  { cfgW with parseSslPolicy := fun _ => .error "no such ssl policy" }

/-- API whose certificate-update RPCs fail, for the partial-update runs. -/
def apiFailCerts : ComputeApi :=
  { okApi with
    setSslProxySslCertificates := fun _ _ _ => .error "cert quota exceeded"
    setHttpsProxySslCertificates := fun _ _ _ => .error "cert quota exceeded" }

/-- API whose backend-service RPC hands back a distinguishable operation
whose wait then fails, for the partial-update runs exercising an
operation-wait failure. -/
def apiWaitFailBackend : ComputeApi :=
  { okApi with
    setSslProxyBackendService := fun _ _ _ => .ok ⟨2⟩
    computeOperationWait := fun o _ _ =>
      if o.opId = 2 then some "wait deadline exceeded" else none }

/-- API whose delete RPCs fail with a not-found message, for the delete
runs. -/
def apiDeleteNotFound : ComputeApi :=
  { okApi with
    deleteSslProxy := fun _ _ => .error "googleapi: Error 404: resource not found"
    deleteHttpsProxy := fun _ _ => .error "googleapi: Error 404: resource not found" }

/-- API whose fetches report the object absent, for the read-after-delete
runs. -/
def apiAbsent : ComputeApi :=
  { okApi with
    getSslProxy := fun _ _ => .error ApiError.notFound
    getHttpsProxy := fun _ _ => .error ApiError.notFound }

/-! ## Helper lemmas -/

theorem expandSslCertificates_ok_map (cfg : Config) (f : String → String) :
    ∀ l : List String, (∀ c ∈ l, cfg.parseSslCertificate c = Except.ok (f c)) →
      expandSslCertificates cfg l = Except.ok (l.map f) := by
  intro l h
  induction l with
  | nil => rfl
  | cons a t ih =>
    have ha := h a (List.mem_cons_self a t)
    have ht := ih (fun c hc => h c (List.mem_cons_of_mem a hc))
    simp [expandSslCertificates, ha, ht]

theorem sslRead_calls_of_project (cfg : Config) (api : ComputeApi) (d : SslState)
    (project : String) (hp : cfg.getProject d.project = Except.ok project) :
    (resourceComputeTargetSslProxyRead cfg api d).calls = [ApiCall.getSslProxy d.id] := by
  cases hg : api.getSslProxy project d.id <;>
    simp [resourceComputeTargetSslProxyRead, hp, hg]

theorem httpsRead_calls_of_project (cfg : Config) (api : ComputeApi) (d : HttpsState)
    (project : String) (hp : cfg.getProject d.project = Except.ok project) :
    (resourceComputeTargetHttpsProxyRead cfg api d).calls = [ApiCall.getHttpsProxy d.id] := by
  cases hg : api.getHttpsProxy project d.id <;>
    simp [resourceComputeTargetHttpsProxyRead, hp, hg]

theorem sslRead_no_mutating_calls (cfg : Config) (api : ComputeApi) (d : SslState) :
    ((resourceComputeTargetSslProxyRead cfg api d).calls).countP isMutatingCall = 0 := by
  cases hp : cfg.getProject d.project with
  | error e => simp [resourceComputeTargetSslProxyRead, hp]
  | ok project =>
    rw [sslRead_calls_of_project cfg api d project hp]
    simp [List.countP_cons, isMutatingCall]

theorem httpsRead_no_mutating_calls (cfg : Config) (api : ComputeApi) (d : HttpsState) :
    ((resourceComputeTargetHttpsProxyRead cfg api d).calls).countP isMutatingCall = 0 := by
  cases hp : cfg.getProject d.project with
  | error e => simp [resourceComputeTargetHttpsProxyRead, hp]
  | ok project =>
    rw [httpsRead_calls_of_project cfg api d project hp]
    simp [List.countP_cons, isMutatingCall]

theorem sslRead_no_attach_calls (cfg : Config) (api : ComputeApi) (d : SslState) :
    ((resourceComputeTargetSslProxyRead cfg api d).calls).countP isSslPolicyAttach = 0 := by
  cases hp : cfg.getProject d.project with
  | error e => simp [resourceComputeTargetSslProxyRead, hp]
  | ok project =>
    rw [sslRead_calls_of_project cfg api d project hp]
    simp [List.countP_cons, isSslPolicyAttach]

theorem httpsRead_no_attach_calls (cfg : Config) (api : ComputeApi) (d : HttpsState) :
    ((resourceComputeTargetHttpsProxyRead cfg api d).calls).countP isHttpsPolicyAttach = 0 := by
  cases hp : cfg.getProject d.project with
  | error e => simp [resourceComputeTargetHttpsProxyRead, hp]
  | ok project =>
    rw [httpsRead_calls_of_project cfg api d project hp]
    simp [List.countP_cons, isHttpsPolicyAttach]

theorem seqStep_parts {a b : Option String × List ApiCall}
    (h : (seqStep a b).1 = none) :
    a.1 = none ∧ b.1 = none ∧ (seqStep a b).2 = a.2 ++ b.2 := by
  cases ha : a.1 with
  | some e => simp [seqStep, ha] at h
  | none => exact ⟨rfl, by simpa [seqStep, ha] using h, by simp [seqStep, ha]⟩

theorem seqStep_fail_parts {a b : Option String × List ApiCall} {e : String}
    (h : (seqStep a b).1 = some e) :
    (a.1 = some e ∧ (seqStep a b).2 = a.2) ∨
    (a.1 = none ∧ b.1 = some e ∧ (seqStep a b).2 = a.2 ++ b.2) := by
  cases ha : a.1 with
  | some e0 =>
    have he : e0 = e := by simpa [seqStep, ha] using h
    exact Or.inl ⟨congrArg some he, by simp [seqStep, ha]⟩
  | none =>
    exact Or.inr ⟨rfl, by simpa [seqStep, ha] using h, by simp [seqStep, ha]⟩

theorem sslUpdateSteps_fail_decomp (cfg : Config) (api : ComputeApi)
    (project : String) (ch : SslChanges) (d : SslState) {e : String}
    (h : (sslUpdateSteps cfg api project ch d).1 = some e) :
    ((sslStepProxyHeader api project ch.proxy_header d).1 = some e ∧
      (sslUpdateSteps cfg api project ch d).2 =
        (sslStepProxyHeader api project ch.proxy_header d).2) ∨
    ((sslStepProxyHeader api project ch.proxy_header d).1 = none ∧
      (sslStepBackendService api project ch.backend_service d).1 = some e ∧
      (sslUpdateSteps cfg api project ch d).2 =
        (sslStepProxyHeader api project ch.proxy_header d).2 ++
          (sslStepBackendService api project ch.backend_service d).2) ∨
    ((sslStepProxyHeader api project ch.proxy_header d).1 = none ∧
      (sslStepBackendService api project ch.backend_service d).1 = none ∧
      (sslStepSslCertificates cfg api project ch.ssl_certificates d).1 = some e ∧
      (sslUpdateSteps cfg api project ch d).2 =
        ((sslStepProxyHeader api project ch.proxy_header d).2 ++
          (sslStepBackendService api project ch.backend_service d).2) ++
          (sslStepSslCertificates cfg api project ch.ssl_certificates d).2) ∨
    ((sslStepProxyHeader api project ch.proxy_header d).1 = none ∧
      (sslStepBackendService api project ch.backend_service d).1 = none ∧
      (sslStepSslCertificates cfg api project ch.ssl_certificates d).1 = none ∧
      (sslStepSslPolicy cfg api project ch.ssl_policy d).1 = some e ∧
      (sslUpdateSteps cfg api project ch d).2 =
        (((sslStepProxyHeader api project ch.proxy_header d).2 ++
          (sslStepBackendService api project ch.backend_service d).2) ++
          (sslStepSslCertificates cfg api project ch.ssl_certificates d).2) ++
          (sslStepSslPolicy cfg api project ch.ssl_policy d).2) := by
  have h' : (seqStep (seqStep (seqStep
      (sslStepProxyHeader api project ch.proxy_header d)
      (sslStepBackendService api project ch.backend_service d))
      (sslStepSslCertificates cfg api project ch.ssl_certificates d))
      (sslStepSslPolicy cfg api project ch.ssl_policy d)).1 = some e := h
  rcases seqStep_fail_parts h' with ⟨hX, hsndX⟩ | ⟨hXok, h4, hsndX⟩
  · rcases seqStep_fail_parts hX with ⟨hY, hsndY⟩ | ⟨hYok, h3, hsndY⟩
    · rcases seqStep_fail_parts hY with ⟨h1, hsndZ⟩ | ⟨h1ok, h2, hsndZ⟩
      · refine Or.inl ⟨h1, ?_⟩
        show (seqStep (seqStep (seqStep
            (sslStepProxyHeader api project ch.proxy_header d)
            (sslStepBackendService api project ch.backend_service d))
            (sslStepSslCertificates cfg api project ch.ssl_certificates d))
            (sslStepSslPolicy cfg api project ch.ssl_policy d)).2 = _
        rw [hsndX, hsndY, hsndZ]
      · refine Or.inr (Or.inl ⟨h1ok, h2, ?_⟩)
        show (seqStep (seqStep (seqStep
            (sslStepProxyHeader api project ch.proxy_header d)
            (sslStepBackendService api project ch.backend_service d))
            (sslStepSslCertificates cfg api project ch.ssl_certificates d))
            (sslStepSslPolicy cfg api project ch.ssl_policy d)).2 = _
        rw [hsndX, hsndY, hsndZ]
    · obtain ⟨h1, h2, hsndZ⟩ := seqStep_parts hYok
      refine Or.inr (Or.inr (Or.inl ⟨h1, h2, h3, ?_⟩))
      show (seqStep (seqStep (seqStep
          (sslStepProxyHeader api project ch.proxy_header d)
          (sslStepBackendService api project ch.backend_service d))
          (sslStepSslCertificates cfg api project ch.ssl_certificates d))
          (sslStepSslPolicy cfg api project ch.ssl_policy d)).2 = _
      rw [hsndX, hsndY, hsndZ]
  · obtain ⟨hYok, h3, hsndY⟩ := seqStep_parts hXok
    obtain ⟨h1, h2, hsndZ⟩ := seqStep_parts hYok
    refine Or.inr (Or.inr (Or.inr ⟨h1, h2, h3, h4, ?_⟩))
    show (seqStep (seqStep (seqStep
        (sslStepProxyHeader api project ch.proxy_header d)
        (sslStepBackendService api project ch.backend_service d))
        (sslStepSslCertificates cfg api project ch.ssl_certificates d))
        (sslStepSslPolicy cfg api project ch.ssl_policy d)).2 = _
    rw [hsndX, hsndY, hsndZ]

theorem httpsUpdateSteps_fail_decomp (cfg : Config) (api : ComputeApi)
    (project : String) (ch : HttpsChanges) (d : HttpsState) {e : String}
    (h : (httpsUpdateSteps cfg api project ch d).1 = some e) :
    ((httpsStepUrlMap api project ch.url_map d).1 = some e ∧
      (httpsUpdateSteps cfg api project ch d).2 =
        (httpsStepUrlMap api project ch.url_map d).2) ∨
    ((httpsStepUrlMap api project ch.url_map d).1 = none ∧
      (httpsStepSslCertificates cfg api project ch.ssl_certificates d).1 = some e ∧
      (httpsUpdateSteps cfg api project ch d).2 =
        (httpsStepUrlMap api project ch.url_map d).2 ++
          (httpsStepSslCertificates cfg api project ch.ssl_certificates d).2) ∨
    ((httpsStepUrlMap api project ch.url_map d).1 = none ∧
      (httpsStepSslCertificates cfg api project ch.ssl_certificates d).1 = none ∧
      (httpsStepSslPolicy cfg api project ch.ssl_policy d).1 = some e ∧
      (httpsUpdateSteps cfg api project ch d).2 =
        ((httpsStepUrlMap api project ch.url_map d).2 ++
          (httpsStepSslCertificates cfg api project ch.ssl_certificates d).2) ++
          (httpsStepSslPolicy cfg api project ch.ssl_policy d).2) := by
  have h' : (seqStep (seqStep
      (httpsStepUrlMap api project ch.url_map d)
      (httpsStepSslCertificates cfg api project ch.ssl_certificates d))
      (httpsStepSslPolicy cfg api project ch.ssl_policy d)).1 = some e := h
  rcases seqStep_fail_parts h' with ⟨hX, hsndX⟩ | ⟨hXok, h3, hsndX⟩
  · rcases seqStep_fail_parts hX with ⟨h1, hsndY⟩ | ⟨h1ok, h2, hsndY⟩
    · refine Or.inl ⟨h1, ?_⟩
      show (seqStep (seqStep
          (httpsStepUrlMap api project ch.url_map d)
          (httpsStepSslCertificates cfg api project ch.ssl_certificates d))
          (httpsStepSslPolicy cfg api project ch.ssl_policy d)).2 = _
      rw [hsndX, hsndY]
    · refine Or.inr (Or.inl ⟨h1ok, h2, ?_⟩)
      show (seqStep (seqStep
          (httpsStepUrlMap api project ch.url_map d)
          (httpsStepSslCertificates cfg api project ch.ssl_certificates d))
          (httpsStepSslPolicy cfg api project ch.ssl_policy d)).2 = _
      rw [hsndX, hsndY]
  · obtain ⟨h1, h2, hsndY⟩ := seqStep_parts hXok
    refine Or.inr (Or.inr ⟨h1, h2, h3, ?_⟩)
    show (seqStep (seqStep
        (httpsStepUrlMap api project ch.url_map d)
        (httpsStepSslCertificates cfg api project ch.ssl_certificates d))
        (httpsStepSslPolicy cfg api project ch.ssl_policy d)).2 = _
    rw [hsndX, hsndY]

theorem sslStepProxyHeader_snd (api : ComputeApi) (project : String) (flag : Bool)
    (d : SslState) :
    (sslStepProxyHeader api project flag d).2 =
      if flag then [ApiCall.setSslProxyProxyHeader d.id d.proxy_header] else [] := by
  cases flag with
  | false => rfl
  | true =>
    cases hc : api.setSslProxyProxyHeader project d.id d.proxy_header with
    | error e => simp [sslStepProxyHeader, hc]
    | ok op =>
      cases hw : api.computeOperationWait op project "Updating Target SSL Proxy" <;>
        simp [sslStepProxyHeader, hc, hw]

theorem sslStepBackendService_snd (api : ComputeApi) (project : String) (flag : Bool)
    (d : SslState) :
    (sslStepBackendService api project flag d).2 =
      if flag then [ApiCall.setSslProxyBackendService d.id d.backend_service] else [] := by
  cases flag with
  | false => rfl
  | true =>
    cases hc : api.setSslProxyBackendService project d.id d.backend_service with
    | error e => simp [sslStepBackendService, hc]
    | ok op =>
      cases hw : api.computeOperationWait op project "Updating Target SSL Proxy" <;>
        simp [sslStepBackendService, hc, hw]

theorem httpsStepUrlMap_snd (api : ComputeApi) (project : String) (flag : Bool)
    (d : HttpsState) :
    (httpsStepUrlMap api project flag d).2 =
      if flag then [ApiCall.setHttpsProxyUrlMap d.id d.url_map] else [] := by
  cases flag with
  | false => rfl
  | true =>
    cases hc : api.setHttpsProxyUrlMap project d.id d.url_map with
    | error e => simp [httpsStepUrlMap, hc]
    | ok op =>
      cases hw : api.computeOperationWait op project "Updating Target Https Proxy URL Map" <;>
        simp [httpsStepUrlMap, hc, hw]

theorem sslStepSslCertificates_spec (cfg : Config) (api : ComputeApi)
    (project : String) (flag : Bool) (d : SslState)
    (h : (sslStepSslCertificates cfg api project flag d).1 = none) :
    (flag = false ∧ (sslStepSslCertificates cfg api project flag d).2 = []) ∨
    (flag = true ∧ ∃ certs,
      expandSslCertificates cfg d.ssl_certificates = Except.ok certs ∧
      (sslStepSslCertificates cfg api project flag d).2 =
        [ApiCall.setSslProxySslCertificates d.id certs]) := by
  cases flag with
  | false => exact Or.inl ⟨rfl, rfl⟩
  | true =>
    refine Or.inr ⟨rfl, ?_⟩
    cases hx : expandSslCertificates cfg d.ssl_certificates with
    | error e => exact absurd h (by simp [sslStepSslCertificates, hx])
    | ok certs =>
      refine ⟨certs, rfl, ?_⟩
      cases hc : api.setSslProxySslCertificates project d.id certs with
      | error e => simp [sslStepSslCertificates, hx, hc]
      | ok op =>
        cases hw : api.computeOperationWait op project "Updating Target SSL Proxy" <;>
          simp [sslStepSslCertificates, hx, hc, hw]

theorem sslStepSslPolicy_spec (cfg : Config) (api : ComputeApi)
    (project : String) (flag : Bool) (d : SslState)
    (h : (sslStepSslPolicy cfg api project flag d).1 = none) :
    (flag = false ∧ (sslStepSslPolicy cfg api project flag d).2 = []) ∨
    (flag = true ∧ ∃ pol,
      cfg.parseSslPolicy d.ssl_policy = Except.ok pol ∧
      (sslStepSslPolicy cfg api project flag d).2 =
        [ApiCall.setSslProxySslPolicy d.id (some pol)]) := by
  cases flag with
  | false => exact Or.inl ⟨rfl, rfl⟩
  | true =>
    refine Or.inr ⟨rfl, ?_⟩
    cases hx : cfg.parseSslPolicy d.ssl_policy with
    | error e => exact absurd h (by simp [sslStepSslPolicy, hx])
    | ok pol =>
      refine ⟨pol, rfl, ?_⟩
      cases hc : api.setSslProxySslPolicy project d.id (some pol) with
      | error e => simp [sslStepSslPolicy, hx, hc]
      | ok op =>
        cases hw : api.computeSharedOperationWait op project
            "Updating Target SSL Proxy SSL Policy" <;>
          simp [sslStepSslPolicy, hx, hc, hw]

theorem httpsStepSslCertificates_spec (cfg : Config) (api : ComputeApi)
    (project : String) (flag : Bool) (d : HttpsState)
    (h : (httpsStepSslCertificates cfg api project flag d).1 = none) :
    (flag = false ∧ (httpsStepSslCertificates cfg api project flag d).2 = []) ∨
    (flag = true ∧ ∃ certs,
      expandSslCertificates cfg d.ssl_certificates = Except.ok certs ∧
      (httpsStepSslCertificates cfg api project flag d).2 =
        [ApiCall.setHttpsProxySslCertificates d.id certs]) := by
  cases flag with
  | false => exact Or.inl ⟨rfl, rfl⟩
  | true =>
    refine Or.inr ⟨rfl, ?_⟩
    cases hx : expandSslCertificates cfg d.ssl_certificates with
    | error e => exact absurd h (by simp [httpsStepSslCertificates, hx])
    | ok certs =>
      refine ⟨certs, rfl, ?_⟩
      cases hc : api.setHttpsProxySslCertificates project d.id certs with
      | error e => simp [httpsStepSslCertificates, hx, hc]
      | ok op =>
        cases hw : api.computeOperationWait op project
            "Updating Target Https Proxy SSL certificates" <;>
          simp [httpsStepSslCertificates, hx, hc, hw]

theorem httpsStepSslPolicy_spec (cfg : Config) (api : ComputeApi)
    (project : String) (flag : Bool) (d : HttpsState)
    (h : (httpsStepSslPolicy cfg api project flag d).1 = none) :
    (flag = false ∧ (httpsStepSslPolicy cfg api project flag d).2 = []) ∨
    (flag = true ∧ ∃ pol,
      cfg.parseSslPolicy d.ssl_policy = Except.ok pol ∧
      (httpsStepSslPolicy cfg api project flag d).2 =
        [ApiCall.setHttpsProxySslPolicy d.id (some pol)]) := by
  cases flag with
  | false => exact Or.inl ⟨rfl, rfl⟩
  | true =>
    refine Or.inr ⟨rfl, ?_⟩
    cases hx : cfg.parseSslPolicy d.ssl_policy with
    | error e => exact absurd h (by simp [httpsStepSslPolicy, hx])
    | ok pol =>
      refine ⟨pol, rfl, ?_⟩
      cases hc : api.setHttpsProxySslPolicy project d.id (some pol) with
      | error e => simp [httpsStepSslPolicy, hx, hc]
      | ok op =>
        cases hw : api.computeSharedOperationWait op project
            "Updating Target HTTPS Proxy SSL Policy" <;>
          simp [httpsStepSslPolicy, hx, hc, hw]

theorem sslUpdateSteps_decomp (cfg : Config) (api : ComputeApi) (project : String)
    (ch : SslChanges) (d : SslState)
    (h : (sslUpdateSteps cfg api project ch d).1 = none) :
    (sslStepProxyHeader api project ch.proxy_header d).1 = none ∧
    (sslStepBackendService api project ch.backend_service d).1 = none ∧
    (sslStepSslCertificates cfg api project ch.ssl_certificates d).1 = none ∧
    (sslStepSslPolicy cfg api project ch.ssl_policy d).1 = none ∧
    (sslUpdateSteps cfg api project ch d).2 =
      ((sslStepProxyHeader api project ch.proxy_header d).2 ++
        (sslStepBackendService api project ch.backend_service d).2 ++
        (sslStepSslCertificates cfg api project ch.ssl_certificates d).2) ++
      (sslStepSslPolicy cfg api project ch.ssl_policy d).2 := by
  have h' : (seqStep (seqStep (seqStep
      (sslStepProxyHeader api project ch.proxy_header d)
      (sslStepBackendService api project ch.backend_service d))
      (sslStepSslCertificates cfg api project ch.ssl_certificates d))
      (sslStepSslPolicy cfg api project ch.ssl_policy d)).1 = none := h
  obtain ⟨hA, h4, hsp4⟩ := seqStep_parts h'
  obtain ⟨hB, h3, hsp3⟩ := seqStep_parts hA
  obtain ⟨h1, h2, hsp2⟩ := seqStep_parts hB
  refine ⟨h1, h2, h3, h4, ?_⟩
  show (seqStep (seqStep (seqStep
      (sslStepProxyHeader api project ch.proxy_header d)
      (sslStepBackendService api project ch.backend_service d))
      (sslStepSslCertificates cfg api project ch.ssl_certificates d))
      (sslStepSslPolicy cfg api project ch.ssl_policy d)).2 = _
  rw [hsp4, hsp3, hsp2]

theorem httpsUpdateSteps_decomp (cfg : Config) (api : ComputeApi) (project : String)
    (ch : HttpsChanges) (d : HttpsState)
    (h : (httpsUpdateSteps cfg api project ch d).1 = none) :
    (httpsStepUrlMap api project ch.url_map d).1 = none ∧
    (httpsStepSslCertificates cfg api project ch.ssl_certificates d).1 = none ∧
    (httpsStepSslPolicy cfg api project ch.ssl_policy d).1 = none ∧
    (httpsUpdateSteps cfg api project ch d).2 =
      ((httpsStepUrlMap api project ch.url_map d).2 ++
        (httpsStepSslCertificates cfg api project ch.ssl_certificates d).2) ++
      (httpsStepSslPolicy cfg api project ch.ssl_policy d).2 := by
  have h' : (seqStep (seqStep
      (httpsStepUrlMap api project ch.url_map d)
      (httpsStepSslCertificates cfg api project ch.ssl_certificates d))
      (httpsStepSslPolicy cfg api project ch.ssl_policy d)).1 = none := h
  obtain ⟨hA, h3, hsp3⟩ := seqStep_parts h'
  obtain ⟨h1, h2, hsp2⟩ := seqStep_parts hA
  refine ⟨h1, h2, h3, ?_⟩
  show (seqStep (seqStep
      (httpsStepUrlMap api project ch.url_map d)
      (httpsStepSslCertificates cfg api project ch.ssl_certificates d))
      (httpsStepSslPolicy cfg api project ch.ssl_policy d)).2 = _
  rw [hsp3, hsp2]

/-! ## Claim theorems -/

/-- Claim C3: on a read whose fetch reports the remote object absent, the
local identity is cleared and no error is returned; on a read whose fetch
succeeds, every remote field is copied into local state, the numeric id
stringified and the self link included.  (The not-found classifier is a
shared helper outside the provided sources, modelled from the spec as
`handleNotFoundError`.) -/
theorem claim3_read_not_found_and_copy :
    (∀ (cfg : Config) (api : ComputeApi) (d : SslState) (project : String),
      cfg.getProject d.project = Except.ok project →
      (api.getSslProxy project d.id = Except.error ApiError.notFound →
        resourceComputeTargetSslProxyRead cfg api d =
          ⟨none, { d with id := "" }, [ApiCall.getSslProxy d.id]⟩) ∧
      (∀ p, api.getSslProxy project d.id = Except.ok p →
        resourceComputeTargetSslProxyRead cfg api d =
          ⟨none,
           { d with
              name := p.name
              description := p.description
              proxy_header := p.proxyHeader
              backend_service := p.service
              ssl_certificates := p.sslCertificates
              ssl_policy := p.sslPolicy
              project := project
              self_link := p.selfLink
              proxy_id := Nat.repr p.id },
           [ApiCall.getSslProxy d.id]⟩)) ∧
    (∀ (cfg : Config) (api : ComputeApi) (d : HttpsState) (project : String),
      cfg.getProject d.project = Except.ok project →
      (api.getHttpsProxy project d.id = Except.error ApiError.notFound →
        resourceComputeTargetHttpsProxyRead cfg api d =
          ⟨none, { d with id := "" }, [ApiCall.getHttpsProxy d.id]⟩) ∧
      (∀ p, api.getHttpsProxy project d.id = Except.ok p →
        resourceComputeTargetHttpsProxyRead cfg api d =
          ⟨none,
           { d with
              ssl_certificates := p.sslCertificates
              proxy_id := Nat.repr p.id
              self_link := p.selfLink
              description := p.description
              url_map := p.urlMap
              name := p.name
              project := project
              ssl_policy := p.sslPolicy },
           [ApiCall.getHttpsProxy d.id]⟩)) := by
  constructor
  · intro cfg api d project hp
    constructor
    · intro hg
      simp [resourceComputeTargetSslProxyRead, hp, hg, handleNotFoundError]
    · intro p hg
      simp [resourceComputeTargetSslProxyRead, hp, hg]
  · intro cfg api d project hp
    constructor
    · intro hg
      simp [resourceComputeTargetHttpsProxyRead, hp, hg, handleNotFoundError]
    · intro p hg
      simp [resourceComputeTargetHttpsProxyRead, hp, hg]

/-- Witness for C3: a concrete read against an absent remote object clears
the identity and succeeds. -/
theorem claim3_witness :
    resourceComputeTargetSslProxyRead cfgW apiAbsent { dSsl0 with id := "proxy-1" } =
      ⟨none, { ({ dSsl0 with id := "proxy-1" } : SslState) with id := "" },
       [ApiCall.getSslProxy "proxy-1"]⟩ :=
  (claim3_read_not_found_and_copy.1 cfgW apiAbsent { dSsl0 with id := "proxy-1" }
    "default-proj" rfl).1 rfl

/-- Claim C7: delete issues the provider delete call, blocks on the
operation, and only on success clears the local identity; any delete-call
error — a not-found included — is returned wrapped with the generic
context, with no state change. -/
theorem claim7_delete_blocks_then_clears :
    (∀ (cfg : Config) (api : ComputeApi) (d : SslState) (project : String),
      cfg.getProject d.project = Except.ok project →
      (∀ e, api.deleteSslProxy project d.id = Except.error e →
        resourceComputeTargetSslProxyDelete cfg api d =
          ⟨some ("Error deleting TargetSslProxy: " ++ e), d,
           [ApiCall.deleteSslProxy d.id]⟩) ∧
      (∀ op, api.deleteSslProxy project d.id = Except.ok op →
        (∀ e, api.computeOperationWait op project "Deleting Target SSL Proxy" = some e →
          resourceComputeTargetSslProxyDelete cfg api d =
            ⟨some e, d, [ApiCall.deleteSslProxy d.id]⟩) ∧
        (api.computeOperationWait op project "Deleting Target SSL Proxy" = none →
          resourceComputeTargetSslProxyDelete cfg api d =
            ⟨none, { d with id := "" }, [ApiCall.deleteSslProxy d.id]⟩))) ∧
    (∀ (cfg : Config) (api : ComputeApi) (d : HttpsState) (project : String),
      cfg.getProject d.project = Except.ok project →
      (∀ e, api.deleteHttpsProxy project d.id = Except.error e →
        resourceComputeTargetHttpsProxyDelete cfg api d =
          ⟨some ("Error deleting TargetHttpsProxy: " ++ e), d,
           [ApiCall.deleteHttpsProxy d.id]⟩) ∧
      (∀ op, api.deleteHttpsProxy project d.id = Except.ok op →
        (∀ e, api.computeOperationWait op project "Deleting Target Https Proxy" = some e →
          resourceComputeTargetHttpsProxyDelete cfg api d =
            ⟨some e, d, [ApiCall.deleteHttpsProxy d.id]⟩) ∧
        (api.computeOperationWait op project "Deleting Target Https Proxy" = none →
          resourceComputeTargetHttpsProxyDelete cfg api d =
            ⟨none, { d with id := "" }, [ApiCall.deleteHttpsProxy d.id]⟩))) := by
  constructor
  · intro cfg api d project hp
    refine ⟨fun e he => ?_, fun op hop => ⟨fun e he => ?_, fun hw => ?_⟩⟩ <;>
      simp [resourceComputeTargetSslProxyDelete, hp, *]
  · intro cfg api d project hp
    refine ⟨fun e he => ?_, fun op hop => ⟨fun e he => ?_, fun hw => ?_⟩⟩ <;>
      simp [resourceComputeTargetHttpsProxyDelete, hp, *]

/-- Witness for C7: a concrete delete whose RPC fails with a 404 message
returns the generic wrapped error and leaves the identity in place. -/
theorem claim7_witness :
    resourceComputeTargetSslProxyDelete cfgW apiDeleteNotFound
        { dSsl0 with id := "proxy-1" } =
      ⟨some "Error deleting TargetSslProxy: googleapi: Error 404: resource not found",
       { dSsl0 with id := "proxy-1" }, [ApiCall.deleteSslProxy "proxy-1"]⟩ :=
  (claim7_delete_blocks_then_clears.1 cfgW apiDeleteNotFound
    { dSsl0 with id := "proxy-1" } "default-proj" rfl).1
    "googleapi: Error 404: resource not found" rfl

/-- Claim C2 (code bug): the create is supposed to surface every error
condition, but the `ssl_policy` parse error is discarded — the `err` of
`ParseSslPolicyFieldValue` is shadowed by the attach RPC's `err` before
being checked — so a create whose policy reference fails to parse returns
no error and still issues the attach call. -/
theorem claim2_policy_parse_error_swallowed :
    cfgBadPolicy.parseSslPolicy "pol-x" = Except.error "Invalid ssl policy" ∧
    (resourceComputeTargetSslProxyCreate cfgBadPolicy okApi
        { dSsl0 with ssl_policy := "pol-x" }).err = none ∧
    (resourceComputeTargetSslProxyCreate cfgBadPolicy okApi
        { dSsl0 with ssl_policy := "pol-x" }).calls.countP isSslPolicyAttach = 1 ∧
    (resourceComputeTargetHttpsProxyCreate cfgBadPolicy okApi
        { dHttps0 with ssl_policy := "pol-x" }).err = none ∧
    (resourceComputeTargetHttpsProxyCreate cfgBadPolicy okApi
        { dHttps0 with ssl_policy := "pol-x" }).calls.countP isHttpsPolicyAttach = 1 :=
  ⟨rfl, rfl, rfl, rfl, rfl⟩

/-- Claim C9: on a declaration whose `ssl_policy` reference fails to parse,
create does not return the parse error; it proceeds to the attach call with
the unchecked (nil) parse result as payload and the run succeeds. -/
theorem claim9_shadowed_parse_result_used :
    cfgBadPolicy9.parseSslPolicy "broken" = Except.error "no such ssl policy" ∧
    (resourceComputeTargetSslProxyCreate cfgBadPolicy9 okApi
        { dSsl0 with ssl_policy := "broken" }).err = none ∧
    (resourceComputeTargetSslProxyCreate cfgBadPolicy9 okApi
        { dSsl0 with ssl_policy := "broken" }).calls.get? 1 =
      some (ApiCall.setSslProxySslPolicy "proxy-1" none) ∧
    (resourceComputeTargetHttpsProxyCreate cfgBadPolicy9 okApi
        { dHttps0 with ssl_policy := "broken" }).err = none ∧
    (resourceComputeTargetHttpsProxyCreate cfgBadPolicy9 okApi
        { dHttps0 with ssl_policy := "broken" }).calls.get? 1 =
      some (ApiCall.setHttpsProxySslPolicy "hproxy-1" none) :=
  ⟨rfl, rfl, rfl, rfl, rfl⟩

/-- Claim C10: an update in which no field group changed issues no mutating
RPC and changes no local field beyond the trailing read: it is exactly the
read-reconcile pass. -/
theorem claim10_noop_update_is_read :
    (∀ (cfg : Config) (api : ComputeApi) (d : SslState),
      resourceComputeTargetSslProxyUpdate cfg api ⟨false, false, false, false⟩ d =
        resourceComputeTargetSslProxyRead cfg api d ∧
      ((resourceComputeTargetSslProxyUpdate cfg api
          ⟨false, false, false, false⟩ d).calls).countP isMutatingCall = 0) ∧
    (∀ (cfg : Config) (api : ComputeApi) (d : HttpsState),
      resourceComputeTargetHttpsProxyUpdate cfg api ⟨false, false, false⟩ d =
        resourceComputeTargetHttpsProxyRead cfg api d ∧
      ((resourceComputeTargetHttpsProxyUpdate cfg api
          ⟨false, false, false⟩ d).calls).countP isMutatingCall = 0) := by
  constructor
  · intro cfg api d
    have h1 : resourceComputeTargetSslProxyUpdate cfg api ⟨false, false, false, false⟩ d =
        resourceComputeTargetSslProxyRead cfg api d := by
      cases hp : cfg.getProject d.project with
      | error e => simp [resourceComputeTargetSslProxyUpdate,
          resourceComputeTargetSslProxyRead, hp]
      | ok project =>
        simp [resourceComputeTargetSslProxyUpdate, hp, sslUpdateSteps,
          sslStepProxyHeader, sslStepBackendService, sslStepSslCertificates,
          sslStepSslPolicy, seqStep, mergeRun]
    exact ⟨h1, by rw [h1]; exact sslRead_no_mutating_calls cfg api d⟩
  · intro cfg api d
    have h1 : resourceComputeTargetHttpsProxyUpdate cfg api ⟨false, false, false⟩ d =
        resourceComputeTargetHttpsProxyRead cfg api d := by
      cases hp : cfg.getProject d.project with
      | error e => simp [resourceComputeTargetHttpsProxyUpdate,
          resourceComputeTargetHttpsProxyRead, hp]
      | ok project =>
        simp [resourceComputeTargetHttpsProxyUpdate, hp, httpsUpdateSteps,
          httpsStepUrlMap, httpsStepSslCertificates, httpsStepSslPolicy,
          seqStep, mergeRun]
    exact ⟨h1, by rw [h1]; exact httpsRead_no_mutating_calls cfg api d⟩

/-- Witness for C10: a concrete no-change update coincides with the read. -/
theorem claim10_witness :
    resourceComputeTargetSslProxyUpdate cfgW okApi ⟨false, false, false, false⟩
        { dSsl0 with id := "proxy-1" } =
      resourceComputeTargetSslProxyRead cfgW okApi { dSsl0 with id := "proxy-1" } :=
  (claim10_noop_update_is_read.1 cfgW okApi { dSsl0 with id := "proxy-1" }).1

/-- Claim C1: creating a declaration against an ideal store-and-echo remote
and reading it back leaves local `ssl_certificates` equal to the declared
references in canonical relative-path form (`f` per element), in declared
order and number, and local state agrees with the remote object field for
field. -/
theorem claim1_create_read_roundtrip :
    (∀ (cfg : Config) (d : SslState) (f : String → String)
        (polLink link : String) (rid : Nat) (project : String),
      cfg.getProject d.project = Except.ok project →
      (∀ c ∈ d.ssl_certificates, cfg.parseSslCertificate c = Except.ok (f c)) →
      (sslRoundTripRun cfg d f polLink rid link).err = none ∧
      (sslRoundTripRun cfg d f polLink rid link).state.ssl_certificates =
        List.map f d.ssl_certificates ∧
      ((sslRoundTripRun cfg d f polLink rid link).state.ssl_certificates).length =
        d.ssl_certificates.length ∧
      sslAgreesWithRemote (sslRoundTripRun cfg d f polLink rid link).state
        (idealRemoteSsl d (List.map f d.ssl_certificates) polLink rid link) project) ∧
    (∀ (cfg : Config) (d : HttpsState) (f : String → String)
        (polLink link : String) (rid : Nat) (project : String),
      cfg.getProject d.project = Except.ok project →
      (∀ c ∈ d.ssl_certificates, cfg.parseSslCertificate c = Except.ok (f c)) →
      (httpsRoundTripRun cfg d f polLink rid link).err = none ∧
      (httpsRoundTripRun cfg d f polLink rid link).state.ssl_certificates =
        List.map f d.ssl_certificates ∧
      ((httpsRoundTripRun cfg d f polLink rid link).state.ssl_certificates).length =
        d.ssl_certificates.length ∧
      httpsAgreesWithRemote (httpsRoundTripRun cfg d f polLink rid link).state
        (idealRemoteHttps d (List.map f d.ssl_certificates) polLink rid link) project) := by
  constructor
  · intro cfg d f polLink link rid project hp hf
    have hx := expandSslCertificates_ok_map cfg f d.ssl_certificates hf
    by_cases hpol : d.ssl_policy = "" <;>
      simp [sslRoundTripRun, resourceComputeTargetSslProxyCreate, hp, hx, hpol,
        idealSslApi, resourceComputeTargetSslProxyRead, mergeRun, idealRemoteSsl,
        sslInsertPayload, sslAgreesWithRemote, List.length_map]
  · intro cfg d f polLink link rid project hp hf
    have hx := expandSslCertificates_ok_map cfg f d.ssl_certificates hf
    by_cases hpol : d.ssl_policy = "" <;>
      simp [httpsRoundTripRun, resourceComputeTargetHttpsProxyCreate, hp, hx, hpol,
        idealHttpsApi, idealSslApi, resourceComputeTargetHttpsProxyRead, mergeRun,
        idealRemoteHttps, httpsInsertPayload, httpsAgreesWithRemote, List.length_map]

/-- Witness for C1: a concrete two-certificate declaration read back from
the ideal server yields both canonical references in declared order. -/
theorem claim1_witness :
    (sslRoundTripRun cfgW dSsl0
        (fun c => "projects/proj/global/sslCertificates/" ++ c) "" 42 "self").err = none ∧
    (sslRoundTripRun cfgW dSsl0
        (fun c => "projects/proj/global/sslCertificates/" ++ c) "" 42 "self").state.ssl_certificates =
      ["projects/proj/global/sslCertificates/cert-a",
       "projects/proj/global/sslCertificates/cert-b"] := by
  have h := claim1_create_read_roundtrip.1 cfgW dSsl0
    (fun c => "projects/proj/global/sslCertificates/" ++ c) "" "self" 42
    "default-proj" rfl (by intro c hc; rfl)
  exact ⟨h.1, h.2.1⟩

/-- Claim C4: with no `ssl_policy` declared, create issues zero
policy-attach calls, in every branch; with one declared, once the insert
and its wait have succeeded, exactly one attach call is issued, directly
after the insert in the trace and against the identity just set, and a
failure of the attach operation wait is returned by the create. -/
theorem claim4_attach_iff_policy_declared :
    (∀ (cfg : Config) (api : ComputeApi) (d : SslState),
      d.ssl_policy = "" →
      ((resourceComputeTargetSslProxyCreate cfg api d).calls).countP isSslPolicyAttach = 0) ∧
    (∀ (cfg : Config) (api : ComputeApi) (d : SslState) (project : String)
        (certs : List String) (op : Op),
      cfg.getProject d.project = Except.ok project →
      expandSslCertificates cfg d.ssl_certificates = Except.ok certs →
      api.insertSslProxy project (sslInsertPayload d certs) = Except.ok op →
      api.computeOperationWait op project "Creating Target Ssl Proxy" = none →
      d.ssl_policy ≠ "" →
      ∃ rest,
        (resourceComputeTargetSslProxyCreate cfg api d).calls =
          ApiCall.insertSslProxy (sslInsertPayload d certs) ::
            ApiCall.setSslProxySslPolicy d.name
              (exOption (cfg.parseSslPolicy d.ssl_policy)) :: rest ∧
        rest.countP isSslPolicyAttach = 0) ∧
    (∀ (cfg : Config) (api : ComputeApi) (d : SslState) (project : String)
        (certs : List String) (op op2 : Op) (e : String),
      cfg.getProject d.project = Except.ok project →
      expandSslCertificates cfg d.ssl_certificates = Except.ok certs →
      api.insertSslProxy project (sslInsertPayload d certs) = Except.ok op →
      api.computeOperationWait op project "Creating Target Ssl Proxy" = none →
      d.ssl_policy ≠ "" →
      api.setSslProxySslPolicy project d.name
        (exOption (cfg.parseSslPolicy d.ssl_policy)) = Except.ok op2 →
      api.computeSharedOperationWait op2 project "Adding Target SSL Proxy SSL Policy" = some e →
      (resourceComputeTargetSslProxyCreate cfg api d).err = some e ∧
      (resourceComputeTargetSslProxyCreate cfg api d).state.id = d.name) ∧
    (∀ (cfg : Config) (api : ComputeApi) (d : HttpsState),
      d.ssl_policy = "" →
      ((resourceComputeTargetHttpsProxyCreate cfg api d).calls).countP isHttpsPolicyAttach = 0) ∧
    (∀ (cfg : Config) (api : ComputeApi) (d : HttpsState) (project : String)
        (certs : List String) (op : Op),
      cfg.getProject d.project = Except.ok project →
      expandSslCertificates cfg d.ssl_certificates = Except.ok certs →
      api.insertHttpsProxy project (httpsInsertPayload d certs) = Except.ok op →
      api.computeOperationWait op project "Creating Target Https Proxy" = none →
      d.ssl_policy ≠ "" →
      ∃ rest,
        (resourceComputeTargetHttpsProxyCreate cfg api d).calls =
          ApiCall.insertHttpsProxy (httpsInsertPayload d certs) ::
            ApiCall.setHttpsProxySslPolicy d.name
              (exOption (cfg.parseSslPolicy d.ssl_policy)) :: rest ∧
        rest.countP isHttpsPolicyAttach = 0) ∧
    (∀ (cfg : Config) (api : ComputeApi) (d : HttpsState) (project : String)
        (certs : List String) (op op2 : Op) (e : String),
      cfg.getProject d.project = Except.ok project →
      expandSslCertificates cfg d.ssl_certificates = Except.ok certs →
      api.insertHttpsProxy project (httpsInsertPayload d certs) = Except.ok op →
      api.computeOperationWait op project "Creating Target Https Proxy" = none →
      d.ssl_policy ≠ "" →
      api.setHttpsProxySslPolicy project d.name
        (exOption (cfg.parseSslPolicy d.ssl_policy)) = Except.ok op2 →
      api.computeSharedOperationWait op2 project "Adding Target HTTPS Proxy SSL Policy" = some e →
      (resourceComputeTargetHttpsProxyCreate cfg api d).err = some e ∧
      (resourceComputeTargetHttpsProxyCreate cfg api d).state.id = d.name) := by
  refine ⟨?_, ?_, ?_, ?_, ?_, ?_⟩
  · intro cfg api d h
    cases hp : cfg.getProject d.project with
    | error e => simp [resourceComputeTargetSslProxyCreate, hp]
    | ok project =>
      cases hx : expandSslCertificates cfg d.ssl_certificates with
      | error e => simp [resourceComputeTargetSslProxyCreate, hp, hx]
      | ok certs =>
        cases hi : api.insertSslProxy project (sslInsertPayload d certs) with
        | error e =>
          simp [resourceComputeTargetSslProxyCreate, hp, hx, hi,
            List.countP_cons, isSslPolicyAttach]
        | ok op =>
          cases hw : api.computeOperationWait op project "Creating Target Ssl Proxy" with
          | some e =>
            simp [resourceComputeTargetSslProxyCreate, hp, hx, hi, hw,
              List.countP_cons, isSslPolicyAttach]
          | none =>
            simp [resourceComputeTargetSslProxyCreate, hp, hx, hi, hw, h, mergeRun,
              List.countP_cons, isSslPolicyAttach, sslRead_no_attach_calls]
  · intro cfg api d project certs op hp hx hi hw hpol
    cases ha : api.setSslProxySslPolicy project d.name
        (exOption (cfg.parseSslPolicy d.ssl_policy)) with
    | error e =>
      exact ⟨[], by simp [resourceComputeTargetSslProxyCreate, hp, hx, hi, hw, hpol, ha],
        rfl⟩
    | ok op2 =>
      cases hw2 : api.computeSharedOperationWait op2 project
          "Adding Target SSL Proxy SSL Policy" with
      | some e =>
        exact ⟨[], by simp [resourceComputeTargetSslProxyCreate, hp, hx, hi, hw, hpol,
          ha, hw2], rfl⟩
      | none =>
        refine ⟨(resourceComputeTargetSslProxyRead cfg api { d with id := d.name }).calls,
          by simp [resourceComputeTargetSslProxyCreate, hp, hx, hi, hw, hpol, ha, hw2,
            mergeRun],
          sslRead_no_attach_calls cfg api { d with id := d.name }⟩
  · intro cfg api d project certs op op2 e hp hx hi hw hpol ha hw2
    constructor <;>
      simp [resourceComputeTargetSslProxyCreate, hp, hx, hi, hw, hpol, ha, hw2]
  · intro cfg api d h
    cases hp : cfg.getProject d.project with
    | error e => simp [resourceComputeTargetHttpsProxyCreate, hp]
    | ok project =>
      cases hx : expandSslCertificates cfg d.ssl_certificates with
      | error e => simp [resourceComputeTargetHttpsProxyCreate, hp, hx]
      | ok certs =>
        cases hi : api.insertHttpsProxy project (httpsInsertPayload d certs) with
        | error e =>
          simp [resourceComputeTargetHttpsProxyCreate, hp, hx, hi,
            List.countP_cons, isHttpsPolicyAttach]
        | ok op =>
          cases hw : api.computeOperationWait op project "Creating Target Https Proxy" with
          | some e =>
            simp [resourceComputeTargetHttpsProxyCreate, hp, hx, hi, hw,
              List.countP_cons, isHttpsPolicyAttach]
          | none =>
            simp [resourceComputeTargetHttpsProxyCreate, hp, hx, hi, hw, h, mergeRun,
              List.countP_cons, isHttpsPolicyAttach, httpsRead_no_attach_calls]
  · intro cfg api d project certs op hp hx hi hw hpol
    cases ha : api.setHttpsProxySslPolicy project d.name
        (exOption (cfg.parseSslPolicy d.ssl_policy)) with
    | error e =>
      exact ⟨[], by simp [resourceComputeTargetHttpsProxyCreate, hp, hx, hi, hw, hpol, ha],
        rfl⟩
    | ok op2 =>
      cases hw2 : api.computeSharedOperationWait op2 project
          "Adding Target HTTPS Proxy SSL Policy" with
      | some e =>
        exact ⟨[], by simp [resourceComputeTargetHttpsProxyCreate, hp, hx, hi, hw, hpol,
          ha, hw2], rfl⟩
      | none =>
        refine ⟨(resourceComputeTargetHttpsProxyRead cfg api { d with id := d.name }).calls,
          by simp [resourceComputeTargetHttpsProxyCreate, hp, hx, hi, hw, hpol, ha, hw2,
            mergeRun],
          httpsRead_no_attach_calls cfg api { d with id := d.name }⟩
  · intro cfg api d project certs op op2 e hp hx hi hw hpol ha hw2
    constructor <;>
      simp [resourceComputeTargetHttpsProxyCreate, hp, hx, hi, hw, hpol, ha, hw2]

/-- Witness for C4: concretely, a declaration without `ssl_policy` issues no
attach call, and one with `ssl_policy` issues the attach directly after the
insert. -/
theorem claim4_witness :
    ((resourceComputeTargetSslProxyCreate cfgW okApi dSsl0).calls).countP
      isSslPolicyAttach = 0 ∧
    (∃ rest,
      (resourceComputeTargetSslProxyCreate cfgW okApi
          { dSsl0 with ssl_policy := "pol-1" }).calls =
        ApiCall.insertSslProxy (sslInsertPayload { dSsl0 with ssl_policy := "pol-1" }
          ["projects/proj/global/sslCertificates/cert-a",
           "projects/proj/global/sslCertificates/cert-b"]) ::
          ApiCall.setSslProxySslPolicy "proxy-1"
            (exOption (cfgW.parseSslPolicy "pol-1")) :: rest ∧
      rest.countP isSslPolicyAttach = 0) :=
  ⟨claim4_attach_iff_policy_declared.1 cfgW okApi dSsl0 rfl,
   claim4_attach_iff_policy_declared.2.1 cfgW okApi { dSsl0 with ssl_policy := "pol-1" }
     "default-proj"
     ["projects/proj/global/sslCertificates/cert-a",
      "projects/proj/global/sslCertificates/cert-b"] ⟨1⟩ rfl rfl rfl rfl (by decide)⟩

/-- Claim C5: on a successful update, the trace is exactly one
field-specific RPC per changed field group, in source order, followed by
the single read fetch — an RPC is issued if and only if the corresponding
`HasChange` flag is set. -/
theorem claim5_update_rpc_iff_changed :
    (∀ (cfg : Config) (api : ComputeApi) (ch : SslChanges) (d : SslState),
      (resourceComputeTargetSslProxyUpdate cfg api ch d).err = none →
      ∃ certs pol,
        (resourceComputeTargetSslProxyUpdate cfg api ch d).calls =
          (if ch.proxy_header then [ApiCall.setSslProxyProxyHeader d.id d.proxy_header]
           else []) ++
          (if ch.backend_service then
            [ApiCall.setSslProxyBackendService d.id d.backend_service] else []) ++
          (if ch.ssl_certificates then
            [ApiCall.setSslProxySslCertificates d.id certs] else []) ++
          (if ch.ssl_policy then [ApiCall.setSslProxySslPolicy d.id (some pol)]
           else []) ++
          [ApiCall.getSslProxy d.id]) ∧
    (∀ (cfg : Config) (api : ComputeApi) (ch : HttpsChanges) (d : HttpsState),
      (resourceComputeTargetHttpsProxyUpdate cfg api ch d).err = none →
      ∃ certs pol,
        (resourceComputeTargetHttpsProxyUpdate cfg api ch d).calls =
          (if ch.url_map then [ApiCall.setHttpsProxyUrlMap d.id d.url_map] else []) ++
          (if ch.ssl_certificates then
            [ApiCall.setHttpsProxySslCertificates d.id certs] else []) ++
          (if ch.ssl_policy then [ApiCall.setHttpsProxySslPolicy d.id (some pol)]
           else []) ++
          [ApiCall.getHttpsProxy d.id]) := by
  constructor
  · intro cfg api ch d h
    cases hp : cfg.getProject d.project with
    | error e => exact absurd h (by simp [resourceComputeTargetSslProxyUpdate, hp])
    | ok project =>
      cases hs : sslUpdateSteps cfg api project ch d with
      | mk o cs =>
        cases o with
        | some e =>
          exact absurd h (by simp [resourceComputeTargetSslProxyUpdate, hp, hs])
        | none =>
          have hfst : (sslUpdateSteps cfg api project ch d).1 = none := by rw [hs]
          obtain ⟨h1, h2, h3, h4, hsnd⟩ := sslUpdateSteps_decomp cfg api project ch d hfst
          have hcs : cs =
              ((sslStepProxyHeader api project ch.proxy_header d).2 ++
                (sslStepBackendService api project ch.backend_service d).2 ++
                (sslStepSslCertificates cfg api project ch.ssl_certificates d).2) ++
              (sslStepSslPolicy cfg api project ch.ssl_policy d).2 := by
            rw [← hsnd, hs]
          have hcalls : (resourceComputeTargetSslProxyUpdate cfg api ch d).calls =
              cs ++ [ApiCall.getSslProxy d.id] := by
            simp [resourceComputeTargetSslProxyUpdate, hp, hs, mergeRun,
              sslRead_calls_of_project cfg api d project hp]
          rcases sslStepSslCertificates_spec cfg api project ch.ssl_certificates d h3 with
            ⟨hf3, hs3⟩ | ⟨ht3, certs, hxok, hs3⟩ <;>
          rcases sslStepSslPolicy_spec cfg api project ch.ssl_policy d h4 with
            ⟨hf4, hs4⟩ | ⟨ht4, pol, hpok, hs4⟩
          · refine ⟨[], "", ?_⟩
            rw [hcalls, hcs, sslStepProxyHeader_snd, sslStepBackendService_snd, hs3, hs4]
            simp [hf3, hf4, List.append_assoc]
          · refine ⟨[], pol, ?_⟩
            rw [hcalls, hcs, sslStepProxyHeader_snd, sslStepBackendService_snd, hs3, hs4]
            simp [hf3, ht4, List.append_assoc]
          · refine ⟨certs, "", ?_⟩
            rw [hcalls, hcs, sslStepProxyHeader_snd, sslStepBackendService_snd, hs3, hs4]
            simp [ht3, hf4, List.append_assoc]
          · refine ⟨certs, pol, ?_⟩
            rw [hcalls, hcs, sslStepProxyHeader_snd, sslStepBackendService_snd, hs3, hs4]
            simp [ht3, ht4, List.append_assoc]
  · intro cfg api ch d h
    cases hp : cfg.getProject d.project with
    | error e => exact absurd h (by simp [resourceComputeTargetHttpsProxyUpdate, hp])
    | ok project =>
      cases hs : httpsUpdateSteps cfg api project ch d with
      | mk o cs =>
        cases o with
        | some e =>
          exact absurd h (by simp [resourceComputeTargetHttpsProxyUpdate, hp, hs])
        | none =>
          have hfst : (httpsUpdateSteps cfg api project ch d).1 = none := by rw [hs]
          obtain ⟨h1, h2, h3, hsnd⟩ := httpsUpdateSteps_decomp cfg api project ch d hfst
          have hcs : cs =
              ((httpsStepUrlMap api project ch.url_map d).2 ++
                (httpsStepSslCertificates cfg api project ch.ssl_certificates d).2) ++
              (httpsStepSslPolicy cfg api project ch.ssl_policy d).2 := by
            rw [← hsnd, hs]
          have hcalls : (resourceComputeTargetHttpsProxyUpdate cfg api ch d).calls =
              cs ++ [ApiCall.getHttpsProxy d.id] := by
            simp [resourceComputeTargetHttpsProxyUpdate, hp, hs, mergeRun,
              httpsRead_calls_of_project cfg api d project hp]
          rcases httpsStepSslCertificates_spec cfg api project ch.ssl_certificates d h2 with
            ⟨hf2, hs2⟩ | ⟨ht2, certs, hxok, hs2⟩ <;>
          rcases httpsStepSslPolicy_spec cfg api project ch.ssl_policy d h3 with
            ⟨hf3, hs3⟩ | ⟨ht3, pol, hpok, hs3⟩
          · refine ⟨[], "", ?_⟩
            rw [hcalls, hcs, httpsStepUrlMap_snd, hs2, hs3]
            simp [hf2, hf3, List.append_assoc]
          · refine ⟨[], pol, ?_⟩
            rw [hcalls, hcs, httpsStepUrlMap_snd, hs2, hs3]
            simp [hf2, ht3, List.append_assoc]
          · refine ⟨certs, "", ?_⟩
            rw [hcalls, hcs, httpsStepUrlMap_snd, hs2, hs3]
            simp [ht2, hf3, List.append_assoc]
          · refine ⟨certs, pol, ?_⟩
            rw [hcalls, hcs, httpsStepUrlMap_snd, hs2, hs3]
            simp [ht2, ht3, List.append_assoc]

/-- Witness for C5: changing only `proxy_header` issues exactly the header
RPC and the read fetch — one mutating call, no others. -/
theorem claim5_witness :
    (resourceComputeTargetSslProxyUpdate cfgW okApi ⟨true, false, false, false⟩
        { dSsl0 with id := "proxy-1" }).calls =
      [ApiCall.setSslProxyProxyHeader "proxy-1" "NONE",
       ApiCall.getSslProxy "proxy-1"] ∧
    ((resourceComputeTargetSslProxyUpdate cfgW okApi ⟨true, false, false, false⟩
        { dSsl0 with id := "proxy-1" }).calls).countP isMutatingCall = 1 := by
  obtain ⟨certs, pol, hc⟩ := claim5_update_rpc_iff_changed.1 cfgW okApi
    ⟨true, false, false, false⟩ { dSsl0 with id := "proxy-1" } rfl
  have h1 : (resourceComputeTargetSslProxyUpdate cfgW okApi ⟨true, false, false, false⟩
      { dSsl0 with id := "proxy-1" }).calls =
      [ApiCall.setSslProxyProxyHeader "proxy-1" "NONE",
       ApiCall.getSslProxy "proxy-1"] := by simpa using hc
  exact ⟨h1, by rw [h1]; rfl⟩

/-- Claim C6: for every update (any `HasChange` flag set) in which some
field-group block fails — its RPC, its operation wait, or its pre-call
expansion/parse — the update returns that block's (context-wrapped) error
immediately with local state untouched, and the trace is exactly the calls
of the blocks up to and including the failing one: earlier groups' issued
changes stand, later groups and the trailing read are not attempted, and
no rollback call is issued. -/
theorem claim6_partial_update_no_rollback :
    (∀ (cfg : Config) (api : ComputeApi) (ch : SslChanges) (d : SslState)
        (project : String) (e : String),
      cfg.getProject d.project = Except.ok project →
      (sslUpdateSteps cfg api project ch d).1 = some e →
      resourceComputeTargetSslProxyUpdate cfg api ch d =
        ⟨some e, d, (sslUpdateSteps cfg api project ch d).2⟩ ∧
      (((sslStepProxyHeader api project ch.proxy_header d).1 = some e ∧
        (sslUpdateSteps cfg api project ch d).2 =
          (sslStepProxyHeader api project ch.proxy_header d).2) ∨
       ((sslStepProxyHeader api project ch.proxy_header d).1 = none ∧
        (sslStepBackendService api project ch.backend_service d).1 = some e ∧
        (sslUpdateSteps cfg api project ch d).2 =
          (sslStepProxyHeader api project ch.proxy_header d).2 ++
            (sslStepBackendService api project ch.backend_service d).2) ∨
       ((sslStepProxyHeader api project ch.proxy_header d).1 = none ∧
        (sslStepBackendService api project ch.backend_service d).1 = none ∧
        (sslStepSslCertificates cfg api project ch.ssl_certificates d).1 = some e ∧
        (sslUpdateSteps cfg api project ch d).2 =
          ((sslStepProxyHeader api project ch.proxy_header d).2 ++
            (sslStepBackendService api project ch.backend_service d).2) ++
            (sslStepSslCertificates cfg api project ch.ssl_certificates d).2) ∨
       ((sslStepProxyHeader api project ch.proxy_header d).1 = none ∧
        (sslStepBackendService api project ch.backend_service d).1 = none ∧
        (sslStepSslCertificates cfg api project ch.ssl_certificates d).1 = none ∧
        (sslStepSslPolicy cfg api project ch.ssl_policy d).1 = some e ∧
        (sslUpdateSteps cfg api project ch d).2 =
          (((sslStepProxyHeader api project ch.proxy_header d).2 ++
            (sslStepBackendService api project ch.backend_service d).2) ++
            (sslStepSslCertificates cfg api project ch.ssl_certificates d).2) ++
            (sslStepSslPolicy cfg api project ch.ssl_policy d).2))) ∧
    (∀ (cfg : Config) (api : ComputeApi) (ch : HttpsChanges) (d : HttpsState)
        (project : String) (e : String),
      cfg.getProject d.project = Except.ok project →
      (httpsUpdateSteps cfg api project ch d).1 = some e →
      resourceComputeTargetHttpsProxyUpdate cfg api ch d =
        ⟨some e, d, (httpsUpdateSteps cfg api project ch d).2⟩ ∧
      (((httpsStepUrlMap api project ch.url_map d).1 = some e ∧
        (httpsUpdateSteps cfg api project ch d).2 =
          (httpsStepUrlMap api project ch.url_map d).2) ∨
       ((httpsStepUrlMap api project ch.url_map d).1 = none ∧
        (httpsStepSslCertificates cfg api project ch.ssl_certificates d).1 = some e ∧
        (httpsUpdateSteps cfg api project ch d).2 =
          (httpsStepUrlMap api project ch.url_map d).2 ++
            (httpsStepSslCertificates cfg api project ch.ssl_certificates d).2) ∨
       ((httpsStepUrlMap api project ch.url_map d).1 = none ∧
        (httpsStepSslCertificates cfg api project ch.ssl_certificates d).1 = none ∧
        (httpsStepSslPolicy cfg api project ch.ssl_policy d).1 = some e ∧
        (httpsUpdateSteps cfg api project ch d).2 =
          ((httpsStepUrlMap api project ch.url_map d).2 ++
            (httpsStepSslCertificates cfg api project ch.ssl_certificates d).2) ++
            (httpsStepSslPolicy cfg api project ch.ssl_policy d).2))) := by
  constructor
  · intro cfg api ch d project e hp hfail
    refine ⟨?_, sslUpdateSteps_fail_decomp cfg api project ch d hfail⟩
    cases hs : sslUpdateSteps cfg api project ch d with
    | mk o cs =>
      have ho : o = some e := by rw [hs] at hfail; exact hfail
      subst ho
      simp [resourceComputeTargetSslProxyUpdate, hp, hs]
  · intro cfg api ch d project e hp hfail
    refine ⟨?_, httpsUpdateSteps_fail_decomp cfg api project ch d hfail⟩
    cases hs : httpsUpdateSteps cfg api project ch d with
    | mk o cs =>
      have ho : o = some e := by rw [hs] at hfail; exact hfail
      subst ho
      simp [resourceComputeTargetHttpsProxyUpdate, hp, hs]

/-- Witness for C6, two concrete failure positions: an SSL update whose
backend-service operation wait fails (header group unchanged) returns the
wait error with only the backend call issued, and an HTTPS update whose
certificate RPC fails keeps the url-map call, returns the wrapped error,
and issues nothing further; both leave local state unchanged. -/
theorem claim6_witness :
    resourceComputeTargetSslProxyUpdate cfgW apiWaitFailBackend
        ⟨false, true, true, false⟩ { dSsl0 with id := "proxy-1" } =
      ⟨some "wait deadline exceeded", { dSsl0 with id := "proxy-1" },
       [ApiCall.setSslProxyBackendService "proxy-1" "bs-1"]⟩ ∧
    resourceComputeTargetHttpsProxyUpdate cfgW apiFailCerts ⟨true, true, true⟩
        { dHttps0 with id := "hproxy-1" } =
      ⟨some "Error updating Target Https Proxy SSL Certificates: cert quota exceeded",
       { dHttps0 with id := "hproxy-1" },
       [ApiCall.setHttpsProxyUrlMap "hproxy-1" "um-1",
        ApiCall.setHttpsProxySslCertificates "hproxy-1"
          ["projects/proj/global/sslCertificates/cert-a"]]⟩ :=
  ⟨(claim6_partial_update_no_rollback.1 cfgW apiWaitFailBackend
      ⟨false, true, true, false⟩ { dSsl0 with id := "proxy-1" } "default-proj"
      "wait deadline exceeded" rfl rfl).1,
   (claim6_partial_update_no_rollback.2 cfgW apiFailCerts ⟨true, true, true⟩
      { dHttps0 with id := "hproxy-1" } "default-proj"
      "Error updating Target Https Proxy SSL Certificates: cert quota exceeded"
      rfl rfl).1⟩

/-- Counterexample for C8: neither schema declares a minimum item count on
`ssl_certificates`, and a concrete declaration with an empty certificate
list is not rejected before an API call — create succeeds and issues the
insert RPC. -/
theorem claim8_counterexample :
    (List.lookup "ssl_certificates" resourceComputeTargetSslProxySchema).map
      SchemaField.minItems = some none ∧
    (List.lookup "ssl_certificates" resourceComputeTargetHttpsProxySchema).map
      SchemaField.minItems = some none ∧
    (resourceComputeTargetSslProxyCreate cfgW okApi
        { dSsl0 with ssl_certificates := [] }).err = none ∧
    ((resourceComputeTargetSslProxyCreate cfgW okApi
        { dSsl0 with ssl_certificates := [] }).calls).countP isSslInsert = 1 ∧
    (resourceComputeTargetHttpsProxyCreate cfgW okApi
        { dHttps0 with ssl_certificates := [] }).err = none ∧
    ((resourceComputeTargetHttpsProxyCreate cfgW okApi
        { dHttps0 with ssl_certificates := [] }).calls).countP isHttpsInsert = 1 :=
  ⟨rfl, rfl, rfl, rfl, rfl, rfl⟩

/-- Claim C8 (amended): `ssl_certificates` is a required ordered string-list
on both resources (capped at one element on the SSL proxy), but no minimum
item count is declared, and a declaration with an empty certificate list is
not rejected before an API call: create reaches the insert RPC with an
empty certificate list. -/
theorem claim8_required_list_without_min :
    List.lookup "ssl_certificates" resourceComputeTargetSslProxySchema =
      some { blankField with
              typ := SchemaType.list SchemaType.string
              required := true
              maxItems := some 1
              diffSuppress := true } ∧
    List.lookup "ssl_certificates" resourceComputeTargetHttpsProxySchema =
      some { blankField with
              typ := SchemaType.list SchemaType.string
              required := true
              diffSuppress := true } ∧
    (∀ (cfg : Config) (api : ComputeApi) (d : SslState) (project : String),
      d.ssl_certificates = [] →
      cfg.getProject d.project = Except.ok project →
      ∃ rest, (resourceComputeTargetSslProxyCreate cfg api d).calls =
        ApiCall.insertSslProxy (sslInsertPayload d []) :: rest) ∧
    (∀ (cfg : Config) (api : ComputeApi) (d : HttpsState) (project : String),
      d.ssl_certificates = [] →
      cfg.getProject d.project = Except.ok project →
      ∃ rest, (resourceComputeTargetHttpsProxyCreate cfg api d).calls =
        ApiCall.insertHttpsProxy (httpsInsertPayload d []) :: rest) := by
  refine ⟨rfl, rfl, ?_, ?_⟩
  · intro cfg api d project hnil hp
    have hx : expandSslCertificates cfg d.ssl_certificates = Except.ok [] := by
      rw [hnil]; rfl
    cases hi : api.insertSslProxy project (sslInsertPayload d []) with
    | error e =>
      exact ⟨[], by simp [resourceComputeTargetSslProxyCreate, hp, hx, hi]⟩
    | ok op =>
      cases hw : api.computeOperationWait op project "Creating Target Ssl Proxy" with
      | some e =>
        exact ⟨[], by simp [resourceComputeTargetSslProxyCreate, hp, hx, hi, hw]⟩
      | none =>
        by_cases hpol : d.ssl_policy = ""
        · exact ⟨(resourceComputeTargetSslProxyRead cfg api { d with id := d.name }).calls,
            by simp [resourceComputeTargetSslProxyCreate, hp, hx, hi, hw, hpol, mergeRun]⟩
        · cases ha : api.setSslProxySslPolicy project d.name
              (exOption (cfg.parseSslPolicy d.ssl_policy)) with
          | error e =>
            exact ⟨[ApiCall.setSslProxySslPolicy d.name
                (exOption (cfg.parseSslPolicy d.ssl_policy))],
              by simp [resourceComputeTargetSslProxyCreate, hp, hx, hi, hw, hpol, ha]⟩
          | ok op2 =>
            cases hw2 : api.computeSharedOperationWait op2 project
                "Adding Target SSL Proxy SSL Policy" with
            | some e =>
              exact ⟨[ApiCall.setSslProxySslPolicy d.name
                  (exOption (cfg.parseSslPolicy d.ssl_policy))],
                by simp [resourceComputeTargetSslProxyCreate, hp, hx, hi, hw, hpol,
                  ha, hw2]⟩
            | none =>
              exact ⟨ApiCall.setSslProxySslPolicy d.name
                  (exOption (cfg.parseSslPolicy d.ssl_policy)) ::
                  (resourceComputeTargetSslProxyRead cfg api { d with id := d.name }).calls,
                by simp [resourceComputeTargetSslProxyCreate, hp, hx, hi, hw, hpol,
                  ha, hw2, mergeRun]⟩
  · intro cfg api d project hnil hp
    have hx : expandSslCertificates cfg d.ssl_certificates = Except.ok [] := by
      rw [hnil]; rfl
    cases hi : api.insertHttpsProxy project (httpsInsertPayload d []) with
    | error e =>
      exact ⟨[], by simp [resourceComputeTargetHttpsProxyCreate, hp, hx, hi]⟩
    | ok op =>
      cases hw : api.computeOperationWait op project "Creating Target Https Proxy" with
      | some e =>
        exact ⟨[], by simp [resourceComputeTargetHttpsProxyCreate, hp, hx, hi, hw]⟩
      | none =>
        by_cases hpol : d.ssl_policy = ""
        · exact ⟨(resourceComputeTargetHttpsProxyRead cfg api { d with id := d.name }).calls,
            by simp [resourceComputeTargetHttpsProxyCreate, hp, hx, hi, hw, hpol, mergeRun]⟩
        · cases ha : api.setHttpsProxySslPolicy project d.name
              (exOption (cfg.parseSslPolicy d.ssl_policy)) with
          | error e =>
            exact ⟨[ApiCall.setHttpsProxySslPolicy d.name
                (exOption (cfg.parseSslPolicy d.ssl_policy))],
              by simp [resourceComputeTargetHttpsProxyCreate, hp, hx, hi, hw, hpol, ha]⟩
          | ok op2 =>
            cases hw2 : api.computeSharedOperationWait op2 project
                "Adding Target HTTPS Proxy SSL Policy" with
            | some e =>
              exact ⟨[ApiCall.setHttpsProxySslPolicy d.name
                  (exOption (cfg.parseSslPolicy d.ssl_policy))],
                by simp [resourceComputeTargetHttpsProxyCreate, hp, hx, hi, hw, hpol,
                  ha, hw2]⟩
            | none =>
              exact ⟨ApiCall.setHttpsProxySslPolicy d.name
                  (exOption (cfg.parseSslPolicy d.ssl_policy)) ::
                  (resourceComputeTargetHttpsProxyRead cfg api { d with id := d.name }).calls,
                by simp [resourceComputeTargetHttpsProxyCreate, hp, hx, hi, hw, hpol,
                  ha, hw2, mergeRun]⟩

/-- Witness for C8 (amended): the concrete empty-list create reaches the
insert RPC with an empty certificate list. -/
theorem claim8_witness :
    ∃ rest, (resourceComputeTargetSslProxyCreate cfgW okApi
        { dSsl0 with ssl_certificates := [] }).calls =
      ApiCall.insertSslProxy (sslInsertPayload { dSsl0 with ssl_certificates := [] } []) ::
        rest :=
  claim8_required_list_without_min.2.2.1 cfgW okApi
    { dSsl0 with ssl_certificates := [] } "default-proj" rfl rfl

end TargetProxy
